import Mathlib

/-!
Shallow embedding of the hill-climbing racing game simulation core
(`src/work_folder/script.js`).  JavaScript numbers are modelled as exact
rationals (every JS double is a rational; float rounding is not modelled).
Transcendental library calls (`Math.sin`, `Math.cos`, `Math.atan2`,
`Math.sqrt`), the random source `Math.random` and the clock `Date.now` are
modelled by an explicit oracle: a record of rational-valued functions, with
the `Math.random` / `Date.now` call sites drawing from an indexed stream
whose counter is threaded through the game state in source order.
`Math.PI` is the exact rational value of the IEEE-754 double JavaScript uses.
Rendering, DOM and input-binding code is excluded (it reads simulation state
but mutates none of it); the game-over reason string written to the DOM by
`endGame` is modelled by the `endReason` field.
-/

namespace HillClimb

/-- Oracle for JavaScript's `Math.sin`, `Math.cos`, `Math.atan2`, `Math.sqrt`,
`Math.random` (a stream, indexed by how many draws happened so far) and
`Date.now` (also a stream). -/
structure Oracle where
  sin : ℚ → ℚ
  cos : ℚ → ℚ
  atan2 : ℚ → ℚ → ℚ
  sqrt : ℚ → ℚ
  rand : ℕ → ℚ
  now : ℕ → ℚ

/-- Exact rational value of the IEEE-754 double `Math.PI`. -/
def jsPi : ℚ := 884279719003555 / 281474976710656

/-- Truncation toward zero, as JavaScript's `%` operator uses. -/
def jsTrunc (q : ℚ) : ℤ := if 0 ≤ q then ⌊q⌋ else ⌈q⌉

/-- JavaScript's `%` operator on numbers: `a % m = a - m * trunc (a / m)`. -/
def jsMod (a m : ℚ) : ℚ := a - m * (jsTrunc (a / m) : ℚ)

/-! ## Game constants (script.js lines 18-87) -/

def GRAVITY : ℚ := 0.4
def GROUND_FRICTION : ℚ := 0.97
def AIR_RESISTANCE : ℚ := 0.99
def MAX_SPEED : ℚ := 12
def ACCELERATION : ℚ := 0.35
def BRAKE_FORCE : ℚ := 0.4
def REVERSE_SPEED : ℚ := -6
def INITIAL_FUEL : ℚ := 100
def FUEL_CONSUMPTION : ℚ := 0.015
def HILL_SEGMENT_WIDTH : ℚ := 30
def MAX_FUEL : ℚ := INITIAL_FUEL
def FUEL_PICKUP_AMOUNT : ℚ := 30
def COIN_PICKUP_CHANCE : ℚ := 0.1
def PICKUP_CLEAR_BEHIND : ℚ := 200
def TERRAIN_FREQUENCY : ℚ := 0.012
def TERRAIN_FREQUENCY_2 : ℚ := 0.025
def TERRAIN_FREQUENCY_3 : ℚ := 0.006
def TERRAIN_AMPLITUDE : ℚ := 70
def TERRAIN_AMPLITUDE_2 : ℚ := 35
def TERRAIN_AMPLITUDE_3 : ℚ := 50
def NOISE_AMPLITUDE : ℚ := 15
def NOISE_SMOOTH : ℚ := 0.9
def FUEL_SPAWN_MIN_M : ℚ := 400
def FUEL_SPAWN_MAX_M : ℚ := 600
def BRIDGE_MIN_DISTANCE : ℚ := 250
def BRIDGE_MAX_DISTANCE : ℚ := 400
def BRIDGE_LENGTH : ℚ := 150
def BOOST_SPAWN_MIN : ℚ := 200
def BOOST_SPAWN_MAX : ℚ := 350
def BOOST_DURATION : ℚ := 3000
def BOOST_SPEED_MULTIPLIER : ℚ := 1.8
def BACKGROUND_CHANGE_DISTANCE : ℚ := 100
def LEVEL_DISTANCE : ℚ := 500

/-- `canvas.height`: `resizeCanvas` always sets it to 600. -/
def canvasHeight : ℚ := 600

/-! ## Data model -/

/-- One terrain sample, `terrain.push({ x, y, isOnBridge })`. -/
structure Sample where
  x : ℚ
  y : ℚ
  isOnBridge : Bool
  deriving DecidableEq

/-- A bridge object; `wooden` models `type === 'wooden'`. -/
structure Bridge where
  startX : ℚ
  endX : ℚ
  y : ℚ
  wooden : Bool
  deriving DecidableEq

/-- A fuel pickup or coin, `{ x, y, collected }`. -/
structure Pickup where
  x : ℚ
  y : ℚ
  collected : Bool
  deriving DecidableEq

/-- A boost pad, `{ x, y, collected, active }`. -/
structure BoostPad where
  x : ℚ
  y : ℚ
  collected : Bool
  active : Bool
  deriving DecidableEq

/-- A visual particle (kept because `createParticles` consumes random draws). -/
structure Particle where
  x : ℚ
  y : ℚ
  vx : ℚ
  vy : ℚ
  life : ℚ
  color : String
  size : ℚ
  deriving DecidableEq

structure Wheel where
  x : ℚ
  y : ℚ
  radius : ℚ
  deriving DecidableEq

structure Wheels where
  front : Wheel
  back : Wheel
  deriving DecidableEq

/-- The car object (script.js lines 103-120). -/
structure Car where
  x : ℚ
  y : ℚ
  width : ℚ
  height : ℚ
  velocityX : ℚ
  velocityY : ℚ
  rotation : ℚ
  angularVelocity : ℚ
  onGround : Bool
  mass : ℚ
  rotationDamping : ℚ
  wheels : Wheels
  deriving DecidableEq

/-- The three input intent flags. -/
structure Keys where
  forward : Bool
  backward : Bool
  brake : Bool
  deriving DecidableEq

inductive GState
  | start
  | playing
  | gameOver
  deriving DecidableEq

inductive EndReason
  | abyss
  | flipped
  | outOfFuel
  deriving DecidableEq

/-- All mutable global simulation state of script.js, as one record.
`canvasWidth` is `canvas.width` (an environment parameter, `min(1200,
container-40)`); `randIdx` / `timeIdx` count the `Math.random` / `Date.now`
calls made so far. -/
structure GameState where
  canvasWidth : ℚ
  gameState : GState
  endReason : Option EndReason
  score : ℚ
  fuel : ℚ
  terrain : List Sample
  terrainOffset : ℚ
  bridges : List Bridge
  fuelPickups : List Pickup
  coins : List Pickup
  boosts : List BoostPad
  coinCount : ℕ
  particles : List Particle
  keys : Keys
  car : Car
  boostActive : Bool
  boostEndTime : ℚ
  lastFuelSpawnX : ℚ
  nextFuelSpawnPx : ℚ
  lastBoostSpawnX : ℚ
  nextBoostSpawnPx : ℚ
  lastBridgeX : ℚ
  nextBridgeX : ℚ
  terrainNoisePrev : ℚ
  currentLevel : ℤ
  currentBackgroundIndex : ℤ
  nextBackgroundIndex : ℤ
  backgroundTransition : ℚ
  randIdx : ℕ
  timeIdx : ℕ
  deriving DecidableEq

/-- The next `Math.random()` value. -/
def peekRand (o : Oracle) (s : GameState) : ℚ := o.rand s.randIdx

/-- Advance the random stream by one draw. -/
def bumpRand (s : GameState) : GameState := { s with randIdx := s.randIdx + 1 }

/-- The next `Date.now()` value. -/
def peekNow (o : Oracle) (s : GameState) : ℚ := o.now s.timeIdx

/-- Advance the clock stream by one call. -/
def bumpNow (s : GameState) : GameState := { s with timeIdx := s.timeIdx + 1 }

/-! ## Terrain generation (script.js lines 132-236) -/

/-- `bridges.some(bridge => x >= bridge.startX && x <= bridge.endX)`. -/
def onBridgeAt (bridges : List Bridge) (x : ℚ) : Bool :=
  bridges.any fun b => decide (b.startX ≤ x) && decide (x ≤ b.endX)

/-- `bridges.find(b => x >= b.startX && x <= b.endX).y`; the `none` branch is
unreachable at call sites (guarded by `onBridgeAt`). -/
def bridgeYAt (bridges : List Bridge) (x : ℚ) : ℚ :=
  match bridges.find? (fun b => decide (b.startX ≤ x) && decide (x ≤ b.endX)) with
  | some b => b.y
  | none => 0

/-- Height computation of `addTerrainSegment` (lines 158-180), returning the
height together with the state (the noise filter state and the random counter
advance in the non-bridge branch). -/
def segmentHeight (o : Oracle) (index : ℤ) (isOnBr : Bool) (x : ℚ)
    (s : GameState) : ℚ × GameState :=
  let baseHeight := canvasHeight * 0.6
  if isOnBr then
    (bridgeYAt s.bridges x, s)
  else
    let phase := (index : ℚ) + s.terrainOffset / HILL_SEGMENT_WIDTH
    let levelMultiplier := 1 + ((s.currentLevel : ℚ) - 1) * 0.15
    let wave1 := o.sin (phase * TERRAIN_FREQUENCY) * TERRAIN_AMPLITUDE * levelMultiplier
    let wave2 := o.sin (phase * TERRAIN_FREQUENCY_2) * TERRAIN_AMPLITUDE_2
    let wave3 := o.sin (phase * TERRAIN_FREQUENCY_3) * TERRAIN_AMPLITUDE_3
    let rawNoise := (peekRand o s - 0.5) * NOISE_AMPLITUDE
    let s := bumpRand s
    let noiseNew := s.terrainNoisePrev * NOISE_SMOOTH + rawNoise * (1 - NOISE_SMOOTH)
    let s := { s with terrainNoisePrev := noiseNew }
    (baseHeight + wave1 + wave2 + wave3 + noiseNew, s)

/-- Bridge spawn check of `addTerrainSegment` (lines 184-199). -/
def spawnBridge (o : Oracle) (x y : ℚ) (isOnBr : Bool) (s : GameState) : GameState :=
  if x ≥ s.lastBridgeX + s.nextBridgeX ∧ isOnBr = false then
    let rt := peekRand o s
    let s := bumpRand s
    let rd := peekRand o s
    let s := bumpRand s
    { s with
      bridges := s.bridges ++
        [{ startX := x, endX := x + BRIDGE_LENGTH, y := y, wooden := decide (rt > 0.5) }],
      lastBridgeX := x,
      nextBridgeX := (BRIDGE_MIN_DISTANCE + rd * (BRIDGE_MAX_DISTANCE - BRIDGE_MIN_DISTANCE)) * 10 }
  else s

/-- Fuel spawn check of `addTerrainSegment` (lines 202-206). -/
def spawnFuel (o : Oracle) (x y : ℚ) (s : GameState) : GameState :=
  if x ≥ s.lastFuelSpawnX + s.nextFuelSpawnPx then
    let r := peekRand o s
    let s := bumpRand s
    { s with
      fuelPickups := s.fuelPickups ++
        [{ x := x + HILL_SEGMENT_WIDTH * 0.5, y := y - 15, collected := false }],
      lastFuelSpawnX := x,
      nextFuelSpawnPx := (FUEL_SPAWN_MIN_M + r * (FUEL_SPAWN_MAX_M - FUEL_SPAWN_MIN_M)) * 10 }
  else s

/-- Boost spawn check of `addTerrainSegment` (lines 209-213). -/
def spawnBoost (o : Oracle) (x y : ℚ) (s : GameState) : GameState :=
  if x ≥ s.lastBoostSpawnX + s.nextBoostSpawnPx then
    let r := peekRand o s
    let s := bumpRand s
    { s with
      boosts := s.boosts ++
        [{ x := x + HILL_SEGMENT_WIDTH * 0.5, y := y - 5, collected := false, active := false }],
      lastBoostSpawnX := x,
      nextBoostSpawnPx := (BOOST_SPAWN_MIN + r * (BOOST_SPAWN_MAX - BOOST_SPAWN_MIN)) * 10 }
  else s

/-- Coin spawn check of `addTerrainSegment` (lines 216-218); the probability
draw happens on every call, the height-offset draw only on success. -/
def spawnCoin (o : Oracle) (x y : ℚ) (s : GameState) : GameState :=
  let rc := peekRand o s
  let s := bumpRand s
  if rc < COIN_PICKUP_CHANCE * (1 - (s.currentLevel : ℚ) * 0.05) then
    let ro := peekRand o s
    let s := bumpRand s
    { s with
      coins := s.coins ++
        [{ x := x + HILL_SEGMENT_WIDTH * 0.6, y := y - 35 - ro * 20, collected := false }] }
  else s

/-- `addTerrainSegment(x, index)` (lines 157-219). -/
def addTerrainSegment (o : Oracle) (x : ℚ) (index : ℤ) (s : GameState) : GameState :=
  let isOnBr := onBridgeAt s.bridges x
  let hp := segmentHeight o index isOnBr x s
  let y := hp.1
  let s := hp.2
  let s := { s with terrain := s.terrain ++ [{ x := x, y := y, isOnBridge := isOnBr }] }
  spawnCoin o x y (spawnBoost o x y (spawnFuel o x y (spawnBridge o x y isOnBr s)))

/-- The shift loop of `updateTerrain` (lines 223-225). -/
def dropOld (off : ℚ) : List Sample → List Sample
  | [] => []
  | p :: rest => if p.x < off - 100 then dropOld off rest else p :: rest

def defaultSample : Sample := { x := 0, y := 0, isOnBridge := false }

/-- `terrain[terrain.length - 1].x`.  On an empty buffer the JS code would
throw; the default value is never used under the windowing invariant. -/
def lastSampleX (t : List Sample) : ℚ := (t.getLastD defaultSample).x

/-- The append-loop bound of `updateTerrain`: `terrainOffset + canvas.width + 100`. -/
def targetX (s : GameState) : ℚ := s.terrainOffset + s.canvasWidth + 100

/-- Number of iterations the append loop of `updateTerrain` performs: each
iteration advances the last sample by `HILL_SEGMENT_WIDTH`, so the loop runs
exactly this many times. -/
def extendCount (s : GameState) : ℕ :=
  (⌈(targetX s - lastSampleX s.terrain) / HILL_SEGMENT_WIDTH⌉).toNat

/-- The append loop of `updateTerrain` (lines 227-232), with an explicit
iteration budget (the loop in the source is a `while`; `extendCount` supplies
a budget under which the loop reaches its negated guard, see
`extendLoop_lastX`). -/
def extendLoop (o : Oracle) : ℕ → GameState → GameState
  | 0, s => s
  | n + 1, s =>
    if lastSampleX s.terrain < targetX s then
      extendLoop o n
        (addTerrainSegment o (lastSampleX s.terrain + HILL_SEGMENT_WIDTH) (s.terrain.length : ℤ) s)
    else s

/-- `updateTerrain()` (lines 222-236). -/
def updateTerrain (o : Oracle) (s : GameState) : GameState :=
  let s := { s with terrain := dropOld s.terrainOffset s.terrain }
  let s := extendLoop o (extendCount s) s
  { s with bridges := s.bridges.filter fun b => decide (b.endX > s.terrainOffset - 200) }

/-! ## Collision detection (script.js lines 319-372) -/

/-- `getTerrainHeightAt(worldX)` (lines 319-330): scan adjacent sample pairs
for the first bracketing pair and interpolate linearly; default baseline
height if no pair brackets. -/
def getTerrainHeightAt : List Sample → ℚ → ℚ
  | p1 :: p2 :: rest, worldX =>
    if p1.x ≤ worldX ∧ worldX ≤ p2.x then
      p1.y + (p2.y - p1.y) * ((worldX - p1.x) / (p2.x - p1.x))
    else getTerrainHeightAt (p2 :: rest) worldX
  | _, _ => canvasHeight * 0.6

/-- `getTerrainAngleAt(worldX)` (lines 332-344). -/
def getTerrainAngleAt (o : Oracle) : List Sample → ℚ → ℚ
  | p1 :: p2 :: rest, worldX =>
    if p1.x ≤ worldX ∧ worldX ≤ p2.x then o.atan2 (p2.y - p1.y) (p2.x - p1.x)
    else getTerrainAngleAt o (p2 :: rest) worldX
  | _, _ => 0

/-- `updateWheelPositions()` (lines 346-357). -/
def updateWheelPositions (o : Oracle) (s : GameState) : GameState :=
  let c := o.cos s.car.rotation
  let sn := o.sin s.car.rotation
  let frontOffsetX := s.car.width * 0.35
  let backOffsetX := -(s.car.width * 0.35)
  { s with car := { s.car with wheels :=
    { front := { x := s.car.x + frontOffsetX * c
               , y := s.car.y + frontOffsetX * sn + s.car.height / 2
               , radius := s.car.wheels.front.radius }
    , back := { x := s.car.x + backOffsetX * c
              , y := s.car.y + backOffsetX * sn + s.car.height / 2
              , radius := s.car.wheels.back.radius } } } }

structure CollisionInfo where
  collision : Bool
  terrainY : ℚ
  penetration : ℚ
  deriving DecidableEq

/-- `checkWheelCollision(wheel)` (lines 359-372).  In the no-collision case
the JS object carries no `terrainY`/`penetration`; those fields are unread
there, so any value is faithful. -/
def checkWheelCollision (s : GameState) (w : Wheel) : CollisionInfo :=
  let worldX := w.x + s.terrainOffset
  let ty := getTerrainHeightAt s.terrain worldX
  if w.y + w.radius ≥ ty then
    { collision := true, terrainY := ty, penetration := w.y + w.radius - ty }
  else
    { collision := false, terrainY := ty, penetration := 0 }

/-! ## Physics update (script.js lines 497-593) -/

/-- Forward-intent branch of `updatePhysics` (lines 502-506): accelerate and
consume fuel only when forward intent is active and fuel is positive;
`acc` is the boost-scaled `currentAcceleration`. -/
def ctrlForward (acc : ℚ) (s : GameState) : GameState :=
  if s.keys.forward = true ∧ s.fuel > 0 then
    let fuel1 := s.fuel - FUEL_CONSUMPTION
    { s with car := { s.car with velocityX := s.car.velocityX + acc },
             fuel := if fuel1 < 0 then 0 else fuel1 }
  else s

/-- Backward-intent branch (lines 508-510), applied unconditionally on the
grounded/airborne state. -/
def ctrlBackward (s : GameState) : GameState :=
  if s.keys.backward = true then
    { s with car := { s.car with velocityX := s.car.velocityX - ACCELERATION * 0.8 } }
  else s

/-- Brake branch (lines 512-514). -/
def ctrlBrake (s : GameState) : GameState :=
  if s.keys.brake = true then
    { s with car := { s.car with velocityX := s.car.velocityX * (1 - BRAKE_FORCE) } }
  else s

/-- The two sequential speed clamps (lines 517-518); `maxSp` is the
boost-scaled `currentMaxSpeed`. -/
def ctrlClamp (maxSp : ℚ) (s : GameState) : GameState :=
  let s :=
    if s.car.velocityX > maxSp then
      { s with car := { s.car with velocityX := maxSp } }
    else s
  if s.car.velocityX < REVERSE_SPEED then
    { s with car := { s.car with velocityX := REVERSE_SPEED } }
  else s

/-- Control application and speed clamping, `updatePhysics` lines 498-518. -/
def controlPhase (s : GameState) : GameState :=
  let currentMaxSpeed := if s.boostActive then MAX_SPEED * BOOST_SPEED_MULTIPLIER else MAX_SPEED
  let currentAcceleration := if s.boostActive then ACCELERATION * 1.5 else ACCELERATION
  ctrlClamp currentMaxSpeed (ctrlBrake (ctrlBackward (ctrlForward currentAcceleration s)))

/-- The grounded rotation smoothing, line 537: `rotation += (target - rotation) * 0.15`. -/
def groundedRotationStep (rot target : ℚ) : ℚ := rot + (target - rot) * 0.15

/-- Gravity, wheel update, ground test and the grounded/airborne branch,
`updatePhysics` lines 520-562. -/
def groundedAirPhase (o : Oracle) (s : GameState) : GameState :=
  let s := { s with car := { s.car with velocityY := s.car.velocityY + GRAVITY } }
  let s := updateWheelPositions o s
  let fc := checkWheelCollision s s.car.wheels.front
  let bc := checkWheelCollision s s.car.wheels.back
  let onG := fc.collision || bc.collision
  if onG then
    let worldX := s.car.x + s.terrainOffset
    let terrainAngle := getTerrainAngleAt o s.terrain worldX
    let newRotation := groundedRotationStep s.car.rotation terrainAngle
    let newY :=
      if fc.collision && bc.collision then
        (fc.terrainY + bc.terrainY) / 2 - s.car.height / 2 - s.car.wheels.front.radius
      else if fc.collision then fc.terrainY - s.car.height / 2 - s.car.wheels.front.radius
      else bc.terrainY - s.car.height / 2 - s.car.wheels.back.radius
    let newVX := s.car.velocityX * GROUND_FRICTION + o.sin terrainAngle * 0.25
    { s with car := { s.car with
        onGround := true, rotation := newRotation, y := newY,
        velocityX := newVX, velocityY := 0,
        angularVelocity := s.car.angularVelocity * s.car.rotationDamping } }
  else
    let newVX := s.car.velocityX * AIR_RESISTANCE
    { s with car := { s.car with
        onGround := false,
        velocityX := newVX,
        rotation := s.car.rotation + s.car.angularVelocity,
        angularVelocity := s.car.angularVelocity * 0.96 + newVX * 0.0008 } }

/-- Position integration, scroll coupling and left clamp, `updatePhysics`
lines 564-578. -/
def integratePhase (s : GameState) : GameState :=
  let s := { s with car := { s.car with x := s.car.x + s.car.velocityX,
                                        y := s.car.y + s.car.velocityY } }
  let s :=
    if s.car.x > s.canvasWidth * 0.4 then
      let scroll := s.car.x - s.canvasWidth * 0.4
      { s with terrainOffset := s.terrainOffset + scroll,
               car := { s.car with x := s.canvasWidth * 0.4 },
               score := s.score + scroll / 10 }
    else s
  if s.car.x < (50 : ℚ) then
    { s with car := { s.car with x := 50, velocityX := max 0 s.car.velocityX } }
  else s

/-- `endGame(reason)` (lines 1146-1156): a no-op unless the game is playing. -/
def endGame (reason : EndReason) (s : GameState) : GameState :=
  if s.gameState ≠ GState.playing then s
  else { s with gameState := GState.gameOver, endReason := some reason }

/-- `((rotation % (2π)) + 2π) % (2π)` from line 585. -/
def normalizedRotation (r : ℚ) : ℚ := jsMod (jsMod r (jsPi * 2) + jsPi * 2) (jsPi * 2)

/-- The fall terminal condition, line 580. -/
abbrev fellCond (s : GameState) : Prop := s.car.y > canvasHeight + 100

/-- The flip terminal condition, lines 585-586. -/
abbrev flipCond (r : ℚ) : Prop :=
  normalizedRotation r > jsPi * 0.7 ∧ normalizedRotation r < jsPi * 1.3

/-- The out-of-fuel terminal condition, line 590. -/
abbrev outOfFuelCond (s : GameState) : Prop :=
  s.fuel ≤ 0 ∧ s.car.velocityX < 0.1 ∧ s.car.velocityX > -0.1

/-- The three terminal checks at the end of `updatePhysics` (lines 580-592),
in source order: fall, flip, out-of-fuel. -/
def terminalChecks (s : GameState) : GameState :=
  let s := if fellCond s then endGame EndReason.abyss s else s
  let s := if flipCond s.car.rotation then endGame EndReason.flipped s else s
  if outOfFuelCond s then endGame EndReason.outOfFuel s else s

/-- `updatePhysics()` (lines 497-593). -/
def updatePhysics (o : Oracle) (s : GameState) : GameState :=
  terminalChecks (integratePhase (groundedAirPhase o (controlPhase s)))

/-! ## Pickups, boost, particles (script.js lines 377-480) -/

/-- `createParticles(x, y, color, count)` (lines 454-466); three random draws
per particle (vx, vy, size). -/
def createParticles (o : Oracle) (x y : ℚ) (color : String) (count : ℕ)
    (s : GameState) : GameState :=
  match count with
  | 0 => s
  | n + 1 =>
    let r1 := peekRand o s
    let s := bumpRand s
    let r2 := peekRand o s
    let s := bumpRand s
    let r3 := peekRand o s
    let s := bumpRand s
    let s := { s with particles := s.particles ++
      [{ x := x, y := y, vx := (r1 - 0.5) * 4, vy := (r2 - 0.5) * 4 - 2,
         life := 1, color := color, size := r3 * 4 + 2 }] }
    createParticles o x y color n s

/-- `activateBoost()` (lines 432-436). -/
def activateBoost (o : Oracle) (s : GameState) : GameState :=
  let t := peekNow o s
  let s := bumpNow s
  { s with boostActive := true, boostEndTime := t + BOOST_DURATION }

/-- The fuel-pickup loop of `checkPickups` (lines 383-394), mutating the
collected flags in place and the fuel/particle state sequentially. -/
def collectFuelPickups (o : Oracle) (carWorldX carWorldY carRadius : ℚ) :
    List Pickup → GameState → List Pickup × GameState
  | [], s => ([], s)
  | p :: rest, s =>
    if p.collected then
      let pr := collectFuelPickups o carWorldX carWorldY carRadius rest s
      (p :: pr.1, pr.2)
    else
      let dx := p.x - carWorldX
      let dy := p.y - carWorldY
      let dist := o.sqrt (dx * dx + dy * dy)
      if dist < carRadius + 10 then
        let s := { s with fuel := min MAX_FUEL (s.fuel + FUEL_PICKUP_AMOUNT) }
        let s := createParticles o (p.x - s.terrainOffset) p.y "#f4a261" 8 s
        let pr := collectFuelPickups o carWorldX carWorldY carRadius rest s
        ({ p with collected := true } :: pr.1, pr.2)
      else
        let pr := collectFuelPickups o carWorldX carWorldY carRadius rest s
        (p :: pr.1, pr.2)

/-- The coin loop of `checkPickups` (lines 397-408). -/
def collectCoins (o : Oracle) (carWorldX carWorldY carRadius : ℚ) :
    List Pickup → GameState → List Pickup × GameState
  | [], s => ([], s)
  | c :: rest, s =>
    if c.collected then
      let pr := collectCoins o carWorldX carWorldY carRadius rest s
      (c :: pr.1, pr.2)
    else
      let dx := c.x - carWorldX
      let dy := c.y - carWorldY
      let dist := o.sqrt (dx * dx + dy * dy)
      if dist < carRadius + 10 then
        let s := { s with coinCount := s.coinCount + 1 }
        let s := createParticles o (c.x - s.terrainOffset) c.y "#FFD700" 10 s
        let pr := collectCoins o carWorldX carWorldY carRadius rest s
        ({ c with collected := true } :: pr.1, pr.2)
      else
        let pr := collectCoins o carWorldX carWorldY carRadius rest s
        (c :: pr.1, pr.2)

/-- The boost loop of `checkPickups` (lines 411-422); the proximity margin is
15 instead of 10. -/
def collectBoosts (o : Oracle) (carWorldX carWorldY carRadius : ℚ) :
    List BoostPad → GameState → List BoostPad × GameState
  | [], s => ([], s)
  | b :: rest, s =>
    if b.collected then
      let pr := collectBoosts o carWorldX carWorldY carRadius rest s
      (b :: pr.1, pr.2)
    else
      let dx := b.x - carWorldX
      let dy := b.y - carWorldY
      let dist := o.sqrt (dx * dx + dy * dy)
      if dist < carRadius + 15 then
        let s := activateBoost o s
        let s := createParticles o (b.x - s.terrainOffset) b.y "#FFD93D" 15 s
        let pr := collectBoosts o carWorldX carWorldY carRadius rest s
        ({ b with collected := true } :: pr.1, pr.2)
      else
        let pr := collectBoosts o carWorldX carWorldY carRadius rest s
        (b :: pr.1, pr.2)

/-- `checkPickups()` (lines 377-427). -/
def checkPickups (o : Oracle) (s : GameState) : GameState :=
  let carWorldX := s.car.x + s.terrainOffset
  let carWorldY := s.car.y
  let carRadius := max s.car.width s.car.height * 0.6
  let fr := collectFuelPickups o carWorldX carWorldY carRadius s.fuelPickups s
  let s := { fr.2 with fuelPickups := fr.1 }
  let cr := collectCoins o carWorldX carWorldY carRadius s.coins s
  let s := { cr.2 with coins := cr.1 }
  let br := collectBoosts o carWorldX carWorldY carRadius s.boosts s
  let s := { br.2 with boosts := br.1 }
  { s with
    fuelPickups := s.fuelPickups.filter fun p =>
      !p.collected && decide (p.x > s.terrainOffset - PICKUP_CLEAR_BEHIND),
    coins := s.coins.filter fun c =>
      !c.collected && decide (c.x > s.terrainOffset - PICKUP_CLEAR_BEHIND),
    boosts := s.boosts.filter fun b =>
      !b.collected && decide (b.x > s.terrainOffset - PICKUP_CLEAR_BEHIND) }

/-- `updateBoost()` (lines 438-449); only the simulation-visible part
(deactivation on expiry). -/
def updateBoost (o : Oracle) (s : GameState) : GameState :=
  if s.boostActive then
    let t := peekNow o s
    let s := bumpNow s
    if s.boostEndTime - t ≤ 0 then { s with boostActive := false } else s
  else s

/-- One step of `updateParticles` (lines 468-480) for a single particle. -/
def stepParticle (p : Particle) : Particle :=
  { p with x := p.x + p.vx, y := p.y + p.vy, vy := p.vy + 0.2, life := p.life - 0.02 }

/-- `updateParticles()` (lines 468-480): step every particle, drop dead ones. -/
def updateParticles (s : GameState) : GameState :=
  { s with particles := (s.particles.map stepParticle).filter fun p => decide (p.life > 0) }

/-! ## Level and background (script.js lines 598-621) -/

/-- `updateLevel()` (lines 598-604). -/
def updateLevel (s : GameState) : GameState :=
  let newLevel := ⌊s.score / LEVEL_DISTANCE⌋ + 1
  if newLevel > s.currentLevel then { s with currentLevel := newLevel } else s

/-- `updateBackground()` (lines 609-621); `BACKGROUNDS.length = 5`. -/
def updateBackground (s : GameState) : GameState :=
  let targetIndex := (⌊s.score / BACKGROUND_CHANGE_DISTANCE⌋).tmod 5
  if targetIndex ≠ s.currentBackgroundIndex then
    let s := { s with nextBackgroundIndex := targetIndex,
                      backgroundTransition := min 1 (s.backgroundTransition + 0.01) }
    if s.backgroundTransition ≥ 1 then
      { s with currentBackgroundIndex := s.nextBackgroundIndex, backgroundTransition := 0 }
    else s
  else s

/-! ## Game loop and lifecycle (script.js lines 1108-1182) -/

/-- The spec's `TickResult.continuing`: the run is still live. -/
abbrev continuing (s : GameState) : Prop := s.gameState = GState.playing

/-- One tick of `gameLoop()` (lines 1161-1182): bail out unless playing, then
run the simulation updates in source order (drawing and UI code mutate no
simulation state). -/
def tick (o : Oracle) (s : GameState) : GameState :=
  if s.gameState = GState.playing then
    updateBackground (updateLevel (updateParticles (updateBoost o
      (checkPickups o (updateTerrain o (updatePhysics o s))))))
  else s

/-- `generateTerrain()` lines 133-148: clear the buffers and reseed the three
spawn cursors/thresholds. -/
def resetGen (o : Oracle) (s : GameState) : GameState :=
  let s := { s with terrain := [], bridges := [], fuelPickups := [], coins := [], boosts := [] }
  let r1 := peekRand o s
  let s := bumpRand s
  let s := { s with lastFuelSpawnX := s.terrainOffset,
                    nextFuelSpawnPx := (FUEL_SPAWN_MIN_M + r1 * (FUEL_SPAWN_MAX_M - FUEL_SPAWN_MIN_M)) * 10 }
  let r2 := peekRand o s
  let s := bumpRand s
  let s := { s with lastBoostSpawnX := s.terrainOffset,
                    nextBoostSpawnPx := (BOOST_SPAWN_MIN + r2 * (BOOST_SPAWN_MAX - BOOST_SPAWN_MIN)) * 10 }
  let r3 := peekRand o s
  let s := bumpRand s
  { s with lastBridgeX := s.terrainOffset - 500,
           nextBridgeX := (BRIDGE_MIN_DISTANCE + r3 * (BRIDGE_MAX_DISTANCE - BRIDGE_MIN_DISTANCE)) * 10 }

/-- The generation loop: `addTerrainSegment(i * HILL_SEGMENT_WIDTH, i)` for
`i = 0 .. n-1`.  This is exactly the segment sequence a run performs: the
initial loop of `generateTerrain` produces `x = i * 30` with index `i`, and
each later append in `updateTerrain` continues with `x = last.x + 30` and
`index = terrain.length`. -/
def genSegments (o : Oracle) (s : GameState) (n : ℕ) : GameState :=
  (List.range n).foldl (fun st (i : ℕ) => addTerrainSegment o ((i : ℚ) * HILL_SEGMENT_WIDTH) (i : ℤ) st) s

/-- `Math.ceil(canvas.width / HILL_SEGMENT_WIDTH) + 10` (line 135). -/
def numSegments (s : GameState) : ℕ := (⌈s.canvasWidth / HILL_SEGMENT_WIDTH⌉).toNat + 10

/-- `generateTerrain()` (lines 132-154). -/
def generateTerrain (o : Oracle) (s : GameState) : GameState :=
  let s := resetGen o s
  genSegments o s (numSegments s)

/-- The car as initialized by `startGame` (lines 1118-1124) together with its
literal constants (lines 103-120). -/
def initCar : Car :=
  { x := 200, y := 300, width := 55, height := 28,
    velocityX := 0, velocityY := 0, rotation := 0, angularVelocity := 0,
    onGround := false, mass := 2.5, rotationDamping := 0.88,
    wheels := { front := { x := 0, y := 0, radius := 9 },
                back := { x := 0, y := 0, radius := 9 } } }

/-- The state `startGame()` (lines 1108-1137) builds before it calls
`generateTerrain`; fields that `generateTerrain` immediately overwrites
(spawn cursors/thresholds) are initialized to placeholder zeros. -/
def initGame (w : ℚ) : GameState :=
  { canvasWidth := w, gameState := GState.playing, endReason := none,
    score := 0, fuel := INITIAL_FUEL, terrain := [], terrainOffset := 0,
    bridges := [], fuelPickups := [], coins := [], boosts := [], coinCount := 0,
    particles := [],
    keys := { forward := false, backward := false, brake := false },
    car := initCar, boostActive := false, boostEndTime := 0,
    lastFuelSpawnX := 0, nextFuelSpawnPx := 0,
    lastBoostSpawnX := 0, nextBoostSpawnPx := 0,
    lastBridgeX := -500, nextBridgeX := 0,
    terrainNoisePrev := 0, currentLevel := 1,
    currentBackgroundIndex := 0, nextBackgroundIndex := 0, backgroundTransition := 0,
    randIdx := 0, timeIdx := 0 }

/-- `startGame()` (lines 1108-1144), up to and including `generateTerrain()`. -/
def startGame (o : Oracle) (w : ℚ) : GameState := generateTerrain o (initGame w)

/-! ## Concrete instances for scenario evaluation -/

/-- Scenario oracle: exact values of the math library at the arguments the
flat-terrain scenarios actually use (`sin 0 = 0`, `cos 0 = 1`,
`atan2 0 30 = 0`), with an all-zeros random stream (`0 ∈ [0, 1)`). -/
def oracleZero : Oracle :=
  { sin := fun _ => 0, cos := fun _ => 1, atan2 := fun _ _ => 0,
    sqrt := fun _ => 0, rand := fun _ => 0, now := fun _ => 0 }

/-- Scenario oracle for a car rotated by `Math.PI`: exact values at the
arguments used there (`sin π = 0` idealized, `cos π = -1`, `atan2 0 30 = 0`). -/
def oracleFlip : Oracle :=
  { sin := fun _ => 0, cos := fun _ => -1, atan2 := fun _ _ => 0,
    sqrt := fun _ => 0, rand := fun _ => 0, now := fun _ => 0 }

/-- A flat terrain buffer at the baseline height 360, covering x = 0 .. 720. -/
def flatTerrain : List Sample :=
  (List.range 25).map fun (i : ℕ) => { x := (i : ℚ) * 30, y := 360, isOnBridge := false }

/-- A running state on flat terrain with the car resting on the ground
(wheel bottom `337 + 28/2 + 9 = 360` exactly on the surface), viewport 600. -/
def scenarioBase : GameState :=
  { initGame 600 with
    terrain := flatTerrain,
    car := { initCar with y := 337 },
    nextFuelSpawnPx := 4000,
    nextBoostSpawnPx := 2000,
    nextBridgeX := 2500 }

/-- Scenario D, first half: fuel 0, velocityX 0. -/
def sFuelStop : GameState := { scenarioBase with fuel := 0 }

/-- Scenario D, second half: fuel 0, velocityX 5. -/
def sFuelCoast : GameState :=
  { scenarioBase with fuel := 0, car := { initCar with y := 337, velocityX := 5 } }

/-- Scenario C: rotation forced to `Math.PI`, grounded on flat terrain. -/
def sFlip : GameState :=
  { scenarioBase with car := { initCar with y := 337, rotation := jsPi } }

/-- An airborne state (car high above the terrain) with forward intent held
and a full tank. -/
def sAir : GameState :=
  { scenarioBase with
    keys := { forward := true, backward := false, brake := false },
    car := { initCar with y := 50 } }

/-- An already-ended state (one tick has returned `continuing: false`). -/
def sDead : GameState :=
  { scenarioBase with gameState := GState.gameOver, endReason := some EndReason.abyss }

/-- A state in which all three terminal conditions hold simultaneously:
fallen below the abyss line, rotation exactly `Math.PI`, out of fuel at rest. -/
def sAll : GameState :=
  { scenarioBase with fuel := 0, car := { initCar with y := 800, rotation := jsPi } }

/-- A state whose level has reached 20. -/
def sLevel20 : GameState := { scenarioBase with currentLevel := 20 }

/-- Modelled from the spec: the rotation "wrapped to `[0, 2π)`" — the unique
representative of `r` modulo `2π` in `[0, 2π)`, written `r - 2π·⌊r/(2π)⌋`
(with `π` the JavaScript `Math.PI` value).  Compared against the source's
`normalizedRotation` computation in `normalizedRotation_eq_wrapSpec`. -/
def wrapSpec (r : ℚ) : ℚ := r - jsPi * 2 * (⌊r / (jsPi * 2)⌋ : ℤ)

/-- Forward-iteration form of `genSegments`: generate the segments with
indices `a, a+1, ..., a+n-1` (at `x = index * HILL_SEGMENT_WIDTH`).  Used for
induction along the generation sequence. -/
def genFrom (o : Oracle) : ℕ → ℕ → GameState → GameState
  | _, 0, s => s
  | a, n + 1, s =>
    genFrom o (a + 1) n (addTerrainSegment o ((a : ℚ) * HILL_SEGMENT_WIDTH) (a : ℤ) s)


/-- A throwaway bridge, the default of `getLastD` on bridge lists (never
selected on a nonempty list). -/
def dummyBridge : Bridge := { startX := 0, endX := 0, y := 0, wooden := false }

/-- Invariant of the bridge-spawn state maintained by segment generation:
consecutive bridges keep an end-to-next-start gap of at least
`BRIDGE_MIN_DISTANCE * 10 - BRIDGE_LENGTH` (equivalently: a start-to-start
gap of at least `BRIDGE_MIN_DISTANCE * 10`); every bridge spans exactly
`BRIDGE_LENGTH`; the spawn cursor `lastBridgeX` sits at the last bridge's
`startX` whenever a bridge exists; and the pending spawn threshold
`nextBridgeX` is at least `BRIDGE_MIN_DISTANCE * 10`. -/
abbrev BridgeInv (s : GameState) : Prop :=
  List.Chain' (fun a b => BRIDGE_MIN_DISTANCE * 10 - BRIDGE_LENGTH ≤ b.startX - a.endX)
      s.bridges
    ∧ (∀ b ∈ s.bridges, b.endX = b.startX + BRIDGE_LENGTH)
    ∧ (s.bridges ≠ [] → s.lastBridgeX = (s.bridges.getLastD dummyBridge).startX)
    ∧ BRIDGE_MIN_DISTANCE * 10 ≤ s.nextBridgeX

/-! # Verification

Lemmas and theorems about the embedded program.  All claim theorems are at
the end of the file; each is one theorem, preceded by a doc comment naming
its claim. -/

/-! ## Wrapping (the flip check's rotation normalization) -/

theorem jsTrunc_of_nonneg {q : ℚ} (h : 0 ≤ q) : jsTrunc q = ⌊q⌋ := if_pos h

theorem jsTrunc_of_neg {q : ℚ} (h : ¬ 0 ≤ q) : jsTrunc q = ⌈q⌉ := if_neg h

theorem jsPi_pos : (0 : ℚ) < jsPi := by norm_num [jsPi]

/-- JS `%` with a positive modulus stays strictly between `-m` and `m`. -/
theorem jsMod_bounds {m : ℚ} (a : ℚ) (hm : 0 < m) : -m < jsMod a m ∧ jsMod a m < m := by
  have hm0 : m ≠ 0 := ne_of_gt hm
  have ha : a / m * m = a := div_mul_cancel₀ a hm0
  by_cases h0 : 0 ≤ a / m
  · rw [jsMod, jsTrunc_of_nonneg h0]
    have h1 : ((⌊a / m⌋ : ℚ)) ≤ a / m := Int.floor_le _
    have h2 : a / m < ⌊a / m⌋ + 1 := Int.lt_floor_add_one _
    have h3 : m * ((⌊a / m⌋ : ℚ)) ≤ m * (a / m) := by
      exact mul_le_mul_of_nonneg_left h1 hm.le
    have h4 : m * (a / m) < m * ((⌊a / m⌋ : ℚ) + 1) := by
      exact mul_lt_mul_of_pos_left h2 hm
    have h5 : m * (a / m) = a := by rw [mul_comm]; exact ha
    constructor <;> nlinarith
  · rw [jsMod, jsTrunc_of_neg h0]
    have h1 : a / m ≤ ((⌈a / m⌉ : ℚ)) := Int.le_ceil _
    have h2 : ((⌈a / m⌉ : ℚ)) < a / m + 1 := Int.ceil_lt_add_one _
    have h3 : m * (a / m) ≤ m * ((⌈a / m⌉ : ℚ)) := by
      exact mul_le_mul_of_nonneg_left h1 hm.le
    have h4 : m * ((⌈a / m⌉ : ℚ)) < m * (a / m + 1) := by
      exact mul_lt_mul_of_pos_left h2 hm
    have h5 : m * (a / m) = a := by rw [mul_comm]; exact ha
    constructor <;> nlinarith

/-- JS `%` of a nonnegative value by a positive modulus lies in `[0, m)`. -/
theorem jsMod_nonneg_bounds {a m : ℚ} (hm : 0 < m) (ha : 0 ≤ a) :
    0 ≤ jsMod a m ∧ jsMod a m < m := by
  have hm0 : m ≠ 0 := ne_of_gt hm
  have hq : 0 ≤ a / m := div_nonneg ha hm.le
  have hmul : a / m * m = a := div_mul_cancel₀ a hm0
  rw [jsMod, jsTrunc_of_nonneg hq]
  have h1 : ((⌊a / m⌋ : ℚ)) ≤ a / m := Int.floor_le _
  have h2 : a / m < ⌊a / m⌋ + 1 := Int.lt_floor_add_one _
  have h3 : m * ((⌊a / m⌋ : ℚ)) ≤ m * (a / m) := mul_le_mul_of_nonneg_left h1 hm.le
  have h4 : m * (a / m) < m * ((⌊a / m⌋ : ℚ) + 1) := mul_lt_mul_of_pos_left h2 hm
  have h5 : m * (a / m) = a := by rw [mul_comm]; exact hmul
  constructor <;> nlinarith

/-- A value in `[0, m)` differing from `a` by an integer multiple of `m` is
exactly `a - m·⌊a/m⌋`. -/
theorem wrap_unique {a m w : ℚ} (hm : 0 < m) (k : ℤ) (hw : w = a - m * k)
    (h0 : 0 ≤ w) (h1 : w < m) : w = a - m * (⌊a / m⌋ : ℤ) := by
  have hk : ⌊a / m⌋ = k := by
    apply Int.floor_eq_iff.mpr
    constructor
    · rw [le_div_iff₀ hm]
      linarith
    · rw [div_lt_iff₀ hm]
      linarith
  rw [hk, hw]

/-- The source's `((r % 2π) + 2π) % 2π` equals the spec's wrap to `[0, 2π)`. -/
theorem normalizedRotation_eq_wrapSpec (r : ℚ) : normalizedRotation r = wrapSpec r := by
  have hm : (0 : ℚ) < jsPi * 2 := by linarith [jsPi_pos]
  have hb := jsMod_bounds r hm
  have hv : 0 ≤ jsMod r (jsPi * 2) + jsPi * 2 := by linarith [hb.1]
  have hw := jsMod_nonneg_bounds hm hv
  apply wrap_unique hm
    (jsTrunc (r / (jsPi * 2)) + jsTrunc ((jsMod r (jsPi * 2) + jsPi * 2) / (jsPi * 2)) - 1)
  · show jsMod (jsMod r (jsPi * 2) + jsPi * 2) (jsPi * 2) = _
    simp only [jsMod]
    push_cast
    ring
  · exact hw.1
  · exact hw.2

/-- The wrapped value `wrapSpec r` lies in `[0, 2π)`. -/
theorem wrapSpec_mem (r : ℚ) : 0 ≤ wrapSpec r ∧ wrapSpec r < jsPi * 2 := by
  have hm : (0 : ℚ) < jsPi * 2 := by linarith [jsPi_pos]
  have hb := jsMod_bounds r hm
  have hv : 0 ≤ jsMod r (jsPi * 2) + jsPi * 2 := by linarith [hb.1]
  have h := jsMod_nonneg_bounds hm hv
  rw [← normalizedRotation_eq_wrapSpec]
  exact h

/-- Wrapping a value already in `[0, 2π)` is the identity. -/
theorem wrapSpec_of_mem {r : ℚ} (h0 : 0 ≤ r) (h1 : r < jsPi * 2) : wrapSpec r = r := by
  have hm : (0 : ℚ) < jsPi * 2 := by linarith [jsPi_pos]
  have h := wrap_unique hm 0 (w := r) (a := r) (by push_cast; ring) h0 h1
  rw [wrapSpec, ← h]

/-- The source's normalization is the identity on `[0, 2π)`. -/
theorem normalizedRotation_of_mem {r : ℚ} (h0 : 0 ≤ r) (h1 : r < jsPi * 2) :
    normalizedRotation r = r := by
  rw [normalizedRotation_eq_wrapSpec, wrapSpec_of_mem h0 h1]

/-! ## Frame lemmas: which fields each phase leaves untouched -/

@[simp] theorem spawnBridge_terrain (o : Oracle) (x y : ℚ) (br : Bool) (s : GameState) :
    (spawnBridge o x y br s).terrain = s.terrain := by
  simp only [spawnBridge]
  split_ifs <;> rfl

@[simp] theorem spawnBridge_coins (o : Oracle) (x y : ℚ) (br : Bool) (s : GameState) :
    (spawnBridge o x y br s).coins = s.coins := by
  simp only [spawnBridge]
  split_ifs <;> rfl

@[simp] theorem spawnBridge_fuel (o : Oracle) (x y : ℚ) (br : Bool) (s : GameState) :
    (spawnBridge o x y br s).fuel = s.fuel := by
  simp only [spawnBridge]
  split_ifs <;> rfl

@[simp] theorem spawnBridge_terrainOffset (o : Oracle) (x y : ℚ) (br : Bool) (s : GameState) :
    (spawnBridge o x y br s).terrainOffset = s.terrainOffset := by
  simp only [spawnBridge]
  split_ifs <;> rfl

@[simp] theorem spawnBridge_canvasWidth (o : Oracle) (x y : ℚ) (br : Bool) (s : GameState) :
    (spawnBridge o x y br s).canvasWidth = s.canvasWidth := by
  simp only [spawnBridge]
  split_ifs <;> rfl

@[simp] theorem spawnBridge_currentLevel (o : Oracle) (x y : ℚ) (br : Bool) (s : GameState) :
    (spawnBridge o x y br s).currentLevel = s.currentLevel := by
  simp only [spawnBridge]
  split_ifs <;> rfl

@[simp] theorem spawnBridge_gameState (o : Oracle) (x y : ℚ) (br : Bool) (s : GameState) :
    (spawnBridge o x y br s).gameState = s.gameState := by
  simp only [spawnBridge]
  split_ifs <;> rfl

@[simp] theorem spawnBridge_car (o : Oracle) (x y : ℚ) (br : Bool) (s : GameState) :
    (spawnBridge o x y br s).car = s.car := by
  simp only [spawnBridge]
  split_ifs <;> rfl

@[simp] theorem spawnBridge_score (o : Oracle) (x y : ℚ) (br : Bool) (s : GameState) :
    (spawnBridge o x y br s).score = s.score := by
  simp only [spawnBridge]
  split_ifs <;> rfl

@[simp] theorem spawnBridge_keys (o : Oracle) (x y : ℚ) (br : Bool) (s : GameState) :
    (spawnBridge o x y br s).keys = s.keys := by
  simp only [spawnBridge]
  split_ifs <;> rfl

@[simp] theorem spawnBridge_boostActive (o : Oracle) (x y : ℚ) (br : Bool) (s : GameState) :
    (spawnBridge o x y br s).boostActive = s.boostActive := by
  simp only [spawnBridge]
  split_ifs <;> rfl

@[simp] theorem spawnBridge_fuelPickups (o : Oracle) (x y : ℚ) (br : Bool) (s : GameState) :
    (spawnBridge o x y br s).fuelPickups = s.fuelPickups := by
  simp only [spawnBridge]
  split_ifs <;> rfl

@[simp] theorem spawnBridge_boosts (o : Oracle) (x y : ℚ) (br : Bool) (s : GameState) :
    (spawnBridge o x y br s).boosts = s.boosts := by
  simp only [spawnBridge]
  split_ifs <;> rfl

@[simp] theorem spawnFuel_terrain (o : Oracle) (x y : ℚ) (s : GameState) :
    (spawnFuel o x y s).terrain = s.terrain := by
  simp only [spawnFuel]
  split_ifs <;> rfl

@[simp] theorem spawnFuel_coins (o : Oracle) (x y : ℚ) (s : GameState) :
    (spawnFuel o x y s).coins = s.coins := by
  simp only [spawnFuel]
  split_ifs <;> rfl

@[simp] theorem spawnFuel_bridges (o : Oracle) (x y : ℚ) (s : GameState) :
    (spawnFuel o x y s).bridges = s.bridges := by
  simp only [spawnFuel]
  split_ifs <;> rfl

@[simp] theorem spawnFuel_lastBridgeX (o : Oracle) (x y : ℚ) (s : GameState) :
    (spawnFuel o x y s).lastBridgeX = s.lastBridgeX := by
  simp only [spawnFuel]
  split_ifs <;> rfl

@[simp] theorem spawnFuel_nextBridgeX (o : Oracle) (x y : ℚ) (s : GameState) :
    (spawnFuel o x y s).nextBridgeX = s.nextBridgeX := by
  simp only [spawnFuel]
  split_ifs <;> rfl

@[simp] theorem spawnFuel_fuel (o : Oracle) (x y : ℚ) (s : GameState) :
    (spawnFuel o x y s).fuel = s.fuel := by
  simp only [spawnFuel]
  split_ifs <;> rfl

@[simp] theorem spawnFuel_terrainOffset (o : Oracle) (x y : ℚ) (s : GameState) :
    (spawnFuel o x y s).terrainOffset = s.terrainOffset := by
  simp only [spawnFuel]
  split_ifs <;> rfl

@[simp] theorem spawnFuel_canvasWidth (o : Oracle) (x y : ℚ) (s : GameState) :
    (spawnFuel o x y s).canvasWidth = s.canvasWidth := by
  simp only [spawnFuel]
  split_ifs <;> rfl

@[simp] theorem spawnFuel_currentLevel (o : Oracle) (x y : ℚ) (s : GameState) :
    (spawnFuel o x y s).currentLevel = s.currentLevel := by
  simp only [spawnFuel]
  split_ifs <;> rfl

@[simp] theorem spawnFuel_gameState (o : Oracle) (x y : ℚ) (s : GameState) :
    (spawnFuel o x y s).gameState = s.gameState := by
  simp only [spawnFuel]
  split_ifs <;> rfl

@[simp] theorem spawnFuel_car (o : Oracle) (x y : ℚ) (s : GameState) :
    (spawnFuel o x y s).car = s.car := by
  simp only [spawnFuel]
  split_ifs <;> rfl

@[simp] theorem spawnFuel_score (o : Oracle) (x y : ℚ) (s : GameState) :
    (spawnFuel o x y s).score = s.score := by
  simp only [spawnFuel]
  split_ifs <;> rfl

@[simp] theorem spawnFuel_keys (o : Oracle) (x y : ℚ) (s : GameState) :
    (spawnFuel o x y s).keys = s.keys := by
  simp only [spawnFuel]
  split_ifs <;> rfl

@[simp] theorem spawnFuel_boostActive (o : Oracle) (x y : ℚ) (s : GameState) :
    (spawnFuel o x y s).boostActive = s.boostActive := by
  simp only [spawnFuel]
  split_ifs <;> rfl

@[simp] theorem spawnFuel_boosts (o : Oracle) (x y : ℚ) (s : GameState) :
    (spawnFuel o x y s).boosts = s.boosts := by
  simp only [spawnFuel]
  split_ifs <;> rfl

@[simp] theorem spawnBoost_terrain (o : Oracle) (x y : ℚ) (s : GameState) :
    (spawnBoost o x y s).terrain = s.terrain := by
  simp only [spawnBoost]
  split_ifs <;> rfl

@[simp] theorem spawnBoost_coins (o : Oracle) (x y : ℚ) (s : GameState) :
    (spawnBoost o x y s).coins = s.coins := by
  simp only [spawnBoost]
  split_ifs <;> rfl

@[simp] theorem spawnBoost_bridges (o : Oracle) (x y : ℚ) (s : GameState) :
    (spawnBoost o x y s).bridges = s.bridges := by
  simp only [spawnBoost]
  split_ifs <;> rfl

@[simp] theorem spawnBoost_lastBridgeX (o : Oracle) (x y : ℚ) (s : GameState) :
    (spawnBoost o x y s).lastBridgeX = s.lastBridgeX := by
  simp only [spawnBoost]
  split_ifs <;> rfl

@[simp] theorem spawnBoost_nextBridgeX (o : Oracle) (x y : ℚ) (s : GameState) :
    (spawnBoost o x y s).nextBridgeX = s.nextBridgeX := by
  simp only [spawnBoost]
  split_ifs <;> rfl

@[simp] theorem spawnBoost_fuel (o : Oracle) (x y : ℚ) (s : GameState) :
    (spawnBoost o x y s).fuel = s.fuel := by
  simp only [spawnBoost]
  split_ifs <;> rfl

@[simp] theorem spawnBoost_terrainOffset (o : Oracle) (x y : ℚ) (s : GameState) :
    (spawnBoost o x y s).terrainOffset = s.terrainOffset := by
  simp only [spawnBoost]
  split_ifs <;> rfl

@[simp] theorem spawnBoost_canvasWidth (o : Oracle) (x y : ℚ) (s : GameState) :
    (spawnBoost o x y s).canvasWidth = s.canvasWidth := by
  simp only [spawnBoost]
  split_ifs <;> rfl

@[simp] theorem spawnBoost_currentLevel (o : Oracle) (x y : ℚ) (s : GameState) :
    (spawnBoost o x y s).currentLevel = s.currentLevel := by
  simp only [spawnBoost]
  split_ifs <;> rfl

@[simp] theorem spawnBoost_gameState (o : Oracle) (x y : ℚ) (s : GameState) :
    (spawnBoost o x y s).gameState = s.gameState := by
  simp only [spawnBoost]
  split_ifs <;> rfl

@[simp] theorem spawnBoost_car (o : Oracle) (x y : ℚ) (s : GameState) :
    (spawnBoost o x y s).car = s.car := by
  simp only [spawnBoost]
  split_ifs <;> rfl

@[simp] theorem spawnBoost_score (o : Oracle) (x y : ℚ) (s : GameState) :
    (spawnBoost o x y s).score = s.score := by
  simp only [spawnBoost]
  split_ifs <;> rfl

@[simp] theorem spawnBoost_keys (o : Oracle) (x y : ℚ) (s : GameState) :
    (spawnBoost o x y s).keys = s.keys := by
  simp only [spawnBoost]
  split_ifs <;> rfl

@[simp] theorem spawnBoost_boostActive (o : Oracle) (x y : ℚ) (s : GameState) :
    (spawnBoost o x y s).boostActive = s.boostActive := by
  simp only [spawnBoost]
  split_ifs <;> rfl

@[simp] theorem spawnBoost_fuelPickups (o : Oracle) (x y : ℚ) (s : GameState) :
    (spawnBoost o x y s).fuelPickups = s.fuelPickups := by
  simp only [spawnBoost]
  split_ifs <;> rfl

@[simp] theorem spawnCoin_terrain (o : Oracle) (x y : ℚ) (s : GameState) :
    (spawnCoin o x y s).terrain = s.terrain := by
  simp only [spawnCoin]
  split_ifs <;> rfl

@[simp] theorem spawnCoin_bridges (o : Oracle) (x y : ℚ) (s : GameState) :
    (spawnCoin o x y s).bridges = s.bridges := by
  simp only [spawnCoin]
  split_ifs <;> rfl

@[simp] theorem spawnCoin_lastBridgeX (o : Oracle) (x y : ℚ) (s : GameState) :
    (spawnCoin o x y s).lastBridgeX = s.lastBridgeX := by
  simp only [spawnCoin]
  split_ifs <;> rfl

@[simp] theorem spawnCoin_nextBridgeX (o : Oracle) (x y : ℚ) (s : GameState) :
    (spawnCoin o x y s).nextBridgeX = s.nextBridgeX := by
  simp only [spawnCoin]
  split_ifs <;> rfl

@[simp] theorem spawnCoin_fuel (o : Oracle) (x y : ℚ) (s : GameState) :
    (spawnCoin o x y s).fuel = s.fuel := by
  simp only [spawnCoin]
  split_ifs <;> rfl

@[simp] theorem spawnCoin_terrainOffset (o : Oracle) (x y : ℚ) (s : GameState) :
    (spawnCoin o x y s).terrainOffset = s.terrainOffset := by
  simp only [spawnCoin]
  split_ifs <;> rfl

@[simp] theorem spawnCoin_canvasWidth (o : Oracle) (x y : ℚ) (s : GameState) :
    (spawnCoin o x y s).canvasWidth = s.canvasWidth := by
  simp only [spawnCoin]
  split_ifs <;> rfl

@[simp] theorem spawnCoin_currentLevel (o : Oracle) (x y : ℚ) (s : GameState) :
    (spawnCoin o x y s).currentLevel = s.currentLevel := by
  simp only [spawnCoin]
  split_ifs <;> rfl

@[simp] theorem spawnCoin_gameState (o : Oracle) (x y : ℚ) (s : GameState) :
    (spawnCoin o x y s).gameState = s.gameState := by
  simp only [spawnCoin]
  split_ifs <;> rfl

@[simp] theorem spawnCoin_car (o : Oracle) (x y : ℚ) (s : GameState) :
    (spawnCoin o x y s).car = s.car := by
  simp only [spawnCoin]
  split_ifs <;> rfl

@[simp] theorem spawnCoin_score (o : Oracle) (x y : ℚ) (s : GameState) :
    (spawnCoin o x y s).score = s.score := by
  simp only [spawnCoin]
  split_ifs <;> rfl

@[simp] theorem spawnCoin_keys (o : Oracle) (x y : ℚ) (s : GameState) :
    (spawnCoin o x y s).keys = s.keys := by
  simp only [spawnCoin]
  split_ifs <;> rfl

@[simp] theorem spawnCoin_boostActive (o : Oracle) (x y : ℚ) (s : GameState) :
    (spawnCoin o x y s).boostActive = s.boostActive := by
  simp only [spawnCoin]
  split_ifs <;> rfl

@[simp] theorem spawnCoin_fuelPickups (o : Oracle) (x y : ℚ) (s : GameState) :
    (spawnCoin o x y s).fuelPickups = s.fuelPickups := by
  simp only [spawnCoin]
  split_ifs <;> rfl

@[simp] theorem spawnCoin_boosts (o : Oracle) (x y : ℚ) (s : GameState) :
    (spawnCoin o x y s).boosts = s.boosts := by
  simp only [spawnCoin]
  split_ifs <;> rfl

@[simp] theorem segmentHeight_terrain (o : Oracle) (i : ℤ) (br : Bool) (x : ℚ) (s : GameState) :
    ((segmentHeight o i br x s).2).terrain = s.terrain := by
  simp only [segmentHeight]
  split_ifs <;> rfl

@[simp] theorem segmentHeight_coins (o : Oracle) (i : ℤ) (br : Bool) (x : ℚ) (s : GameState) :
    ((segmentHeight o i br x s).2).coins = s.coins := by
  simp only [segmentHeight]
  split_ifs <;> rfl

@[simp] theorem segmentHeight_bridges (o : Oracle) (i : ℤ) (br : Bool) (x : ℚ) (s : GameState) :
    ((segmentHeight o i br x s).2).bridges = s.bridges := by
  simp only [segmentHeight]
  split_ifs <;> rfl

@[simp] theorem segmentHeight_lastBridgeX (o : Oracle) (i : ℤ) (br : Bool) (x : ℚ) (s : GameState) :
    ((segmentHeight o i br x s).2).lastBridgeX = s.lastBridgeX := by
  simp only [segmentHeight]
  split_ifs <;> rfl

@[simp] theorem segmentHeight_nextBridgeX (o : Oracle) (i : ℤ) (br : Bool) (x : ℚ) (s : GameState) :
    ((segmentHeight o i br x s).2).nextBridgeX = s.nextBridgeX := by
  simp only [segmentHeight]
  split_ifs <;> rfl

@[simp] theorem segmentHeight_fuel (o : Oracle) (i : ℤ) (br : Bool) (x : ℚ) (s : GameState) :
    ((segmentHeight o i br x s).2).fuel = s.fuel := by
  simp only [segmentHeight]
  split_ifs <;> rfl

@[simp] theorem segmentHeight_terrainOffset (o : Oracle) (i : ℤ) (br : Bool) (x : ℚ) (s : GameState) :
    ((segmentHeight o i br x s).2).terrainOffset = s.terrainOffset := by
  simp only [segmentHeight]
  split_ifs <;> rfl

@[simp] theorem segmentHeight_canvasWidth (o : Oracle) (i : ℤ) (br : Bool) (x : ℚ) (s : GameState) :
    ((segmentHeight o i br x s).2).canvasWidth = s.canvasWidth := by
  simp only [segmentHeight]
  split_ifs <;> rfl

@[simp] theorem segmentHeight_currentLevel (o : Oracle) (i : ℤ) (br : Bool) (x : ℚ) (s : GameState) :
    ((segmentHeight o i br x s).2).currentLevel = s.currentLevel := by
  simp only [segmentHeight]
  split_ifs <;> rfl

@[simp] theorem segmentHeight_gameState (o : Oracle) (i : ℤ) (br : Bool) (x : ℚ) (s : GameState) :
    ((segmentHeight o i br x s).2).gameState = s.gameState := by
  simp only [segmentHeight]
  split_ifs <;> rfl

@[simp] theorem segmentHeight_car (o : Oracle) (i : ℤ) (br : Bool) (x : ℚ) (s : GameState) :
    ((segmentHeight o i br x s).2).car = s.car := by
  simp only [segmentHeight]
  split_ifs <;> rfl

@[simp] theorem segmentHeight_score (o : Oracle) (i : ℤ) (br : Bool) (x : ℚ) (s : GameState) :
    ((segmentHeight o i br x s).2).score = s.score := by
  simp only [segmentHeight]
  split_ifs <;> rfl

@[simp] theorem segmentHeight_keys (o : Oracle) (i : ℤ) (br : Bool) (x : ℚ) (s : GameState) :
    ((segmentHeight o i br x s).2).keys = s.keys := by
  simp only [segmentHeight]
  split_ifs <;> rfl

@[simp] theorem segmentHeight_boostActive (o : Oracle) (i : ℤ) (br : Bool) (x : ℚ) (s : GameState) :
    ((segmentHeight o i br x s).2).boostActive = s.boostActive := by
  simp only [segmentHeight]
  split_ifs <;> rfl

@[simp] theorem segmentHeight_fuelPickups (o : Oracle) (i : ℤ) (br : Bool) (x : ℚ) (s : GameState) :
    ((segmentHeight o i br x s).2).fuelPickups = s.fuelPickups := by
  simp only [segmentHeight]
  split_ifs <;> rfl

@[simp] theorem segmentHeight_boosts (o : Oracle) (i : ℤ) (br : Bool) (x : ℚ) (s : GameState) :
    ((segmentHeight o i br x s).2).boosts = s.boosts := by
  simp only [segmentHeight]
  split_ifs <;> rfl

/-! ## Effect of `addTerrainSegment` and the update pipeline on single fields -/

/-- `addTerrainSegment` appends exactly one sample, at the given `x`. -/
theorem addTerrainSegment_terrain (o : Oracle) (x : ℚ) (i : ℤ) (s : GameState) :
    ∃ y : ℚ, (addTerrainSegment o x i s).terrain
      = s.terrain ++ [{ x := x, y := y, isOnBridge := onBridgeAt s.bridges x }] := by
  refine ⟨(segmentHeight o i (onBridgeAt s.bridges x) x s).1, ?_⟩
  simp [addTerrainSegment]

@[simp] theorem addTerrainSegment_fuel (o : Oracle) (x : ℚ) (i : ℤ) (s : GameState) :
    (addTerrainSegment o x i s).fuel = s.fuel := by
  simp [addTerrainSegment]

@[simp] theorem addTerrainSegment_terrainOffset (o : Oracle) (x : ℚ) (i : ℤ) (s : GameState) :
    (addTerrainSegment o x i s).terrainOffset = s.terrainOffset := by
  simp [addTerrainSegment]

@[simp] theorem addTerrainSegment_canvasWidth (o : Oracle) (x : ℚ) (i : ℤ) (s : GameState) :
    (addTerrainSegment o x i s).canvasWidth = s.canvasWidth := by
  simp [addTerrainSegment]

@[simp] theorem addTerrainSegment_currentLevel (o : Oracle) (x : ℚ) (i : ℤ) (s : GameState) :
    (addTerrainSegment o x i s).currentLevel = s.currentLevel := by
  simp [addTerrainSegment]

@[simp] theorem addTerrainSegment_gameState (o : Oracle) (x : ℚ) (i : ℤ) (s : GameState) :
    (addTerrainSegment o x i s).gameState = s.gameState := by
  simp [addTerrainSegment]

@[simp] theorem addTerrainSegment_car (o : Oracle) (x : ℚ) (i : ℤ) (s : GameState) :
    (addTerrainSegment o x i s).car = s.car := by
  simp [addTerrainSegment]

@[simp] theorem addTerrainSegment_score (o : Oracle) (x : ℚ) (i : ℤ) (s : GameState) :
    (addTerrainSegment o x i s).score = s.score := by
  simp [addTerrainSegment]

@[simp] theorem addTerrainSegment_keys (o : Oracle) (x : ℚ) (i : ℤ) (s : GameState) :
    (addTerrainSegment o x i s).keys = s.keys := by
  simp [addTerrainSegment]

@[simp] theorem addTerrainSegment_boostActive (o : Oracle) (x : ℚ) (i : ℤ) (s : GameState) :
    (addTerrainSegment o x i s).boostActive = s.boostActive := by
  simp [addTerrainSegment]

@[simp] theorem extendLoop_fuel (o : Oracle) (n : ℕ) : ∀ s : GameState,
    (extendLoop o n s).fuel = s.fuel := by
  induction n with
  | zero => intro s; rfl
  | succ n ih =>
    intro s
    simp only [extendLoop]
    split_ifs <;> simp [ih]

@[simp] theorem extendLoop_terrainOffset (o : Oracle) (n : ℕ) : ∀ s : GameState,
    (extendLoop o n s).terrainOffset = s.terrainOffset := by
  induction n with
  | zero => intro s; rfl
  | succ n ih =>
    intro s
    simp only [extendLoop]
    split_ifs <;> simp [ih]

@[simp] theorem extendLoop_canvasWidth (o : Oracle) (n : ℕ) : ∀ s : GameState,
    (extendLoop o n s).canvasWidth = s.canvasWidth := by
  induction n with
  | zero => intro s; rfl
  | succ n ih =>
    intro s
    simp only [extendLoop]
    split_ifs <;> simp [ih]

@[simp] theorem extendLoop_currentLevel (o : Oracle) (n : ℕ) : ∀ s : GameState,
    (extendLoop o n s).currentLevel = s.currentLevel := by
  induction n with
  | zero => intro s; rfl
  | succ n ih =>
    intro s
    simp only [extendLoop]
    split_ifs <;> simp [ih]

@[simp] theorem extendLoop_gameState (o : Oracle) (n : ℕ) : ∀ s : GameState,
    (extendLoop o n s).gameState = s.gameState := by
  induction n with
  | zero => intro s; rfl
  | succ n ih =>
    intro s
    simp only [extendLoop]
    split_ifs <;> simp [ih]

@[simp] theorem extendLoop_car (o : Oracle) (n : ℕ) : ∀ s : GameState,
    (extendLoop o n s).car = s.car := by
  induction n with
  | zero => intro s; rfl
  | succ n ih =>
    intro s
    simp only [extendLoop]
    split_ifs <;> simp [ih]

@[simp] theorem extendLoop_score (o : Oracle) (n : ℕ) : ∀ s : GameState,
    (extendLoop o n s).score = s.score := by
  induction n with
  | zero => intro s; rfl
  | succ n ih =>
    intro s
    simp only [extendLoop]
    split_ifs <;> simp [ih]

@[simp] theorem extendLoop_keys (o : Oracle) (n : ℕ) : ∀ s : GameState,
    (extendLoop o n s).keys = s.keys := by
  induction n with
  | zero => intro s; rfl
  | succ n ih =>
    intro s
    simp only [extendLoop]
    split_ifs <;> simp [ih]

@[simp] theorem extendLoop_boostActive (o : Oracle) (n : ℕ) : ∀ s : GameState,
    (extendLoop o n s).boostActive = s.boostActive := by
  induction n with
  | zero => intro s; rfl
  | succ n ih =>
    intro s
    simp only [extendLoop]
    split_ifs <;> simp [ih]

@[simp] theorem updateTerrain_fuel (o : Oracle) (s : GameState) :
    (updateTerrain o s).fuel = s.fuel := by
  simp [updateTerrain]

@[simp] theorem updateTerrain_terrainOffset (o : Oracle) (s : GameState) :
    (updateTerrain o s).terrainOffset = s.terrainOffset := by
  simp [updateTerrain]

@[simp] theorem updateTerrain_canvasWidth (o : Oracle) (s : GameState) :
    (updateTerrain o s).canvasWidth = s.canvasWidth := by
  simp [updateTerrain]

@[simp] theorem updateTerrain_currentLevel (o : Oracle) (s : GameState) :
    (updateTerrain o s).currentLevel = s.currentLevel := by
  simp [updateTerrain]

@[simp] theorem updateTerrain_gameState (o : Oracle) (s : GameState) :
    (updateTerrain o s).gameState = s.gameState := by
  simp [updateTerrain]

@[simp] theorem updateTerrain_car (o : Oracle) (s : GameState) :
    (updateTerrain o s).car = s.car := by
  simp [updateTerrain]

@[simp] theorem updateTerrain_score (o : Oracle) (s : GameState) :
    (updateTerrain o s).score = s.score := by
  simp [updateTerrain]

@[simp] theorem updateTerrain_keys (o : Oracle) (s : GameState) :
    (updateTerrain o s).keys = s.keys := by
  simp [updateTerrain]

@[simp] theorem updateTerrain_boostActive (o : Oracle) (s : GameState) :
    (updateTerrain o s).boostActive = s.boostActive := by
  simp [updateTerrain]

@[simp] theorem endGame_fuel (r : EndReason) (s : GameState) :
    (endGame r s).fuel = s.fuel := by
  simp only [endGame]
  split_ifs <;> rfl

@[simp] theorem endGame_car (r : EndReason) (s : GameState) :
    (endGame r s).car = s.car := by
  simp only [endGame]
  split_ifs <;> rfl

@[simp] theorem endGame_score (r : EndReason) (s : GameState) :
    (endGame r s).score = s.score := by
  simp only [endGame]
  split_ifs <;> rfl

/-- `endGame` is a no-op when the game is not in the `playing` state. -/
theorem endGame_of_not_playing {s : GameState} (r : EndReason)
    (h : s.gameState ≠ GState.playing) : endGame r s = s := by
  simp [endGame, h]

/-- `endGame` on a playing state records the reason and ends the game. -/
theorem endGame_of_playing {s : GameState} (r : EndReason)
    (h : s.gameState = GState.playing) :
    endGame r s = { s with gameState := GState.gameOver, endReason := some r } := by
  simp [endGame, h]

@[simp] theorem terminalChecks_fuel (s : GameState) :
    (terminalChecks s).fuel = s.fuel := by
  simp only [terminalChecks]
  split_ifs <;> simp

@[simp] theorem terminalChecks_car (s : GameState) :
    (terminalChecks s).car = s.car := by
  simp only [terminalChecks]
  split_ifs <;> simp

@[simp] theorem groundedAirPhase_fuel (o : Oracle) (s : GameState) :
    (groundedAirPhase o s).fuel = s.fuel := by
  simp only [groundedAirPhase, updateWheelPositions]
  split_ifs <;> rfl

@[simp] theorem integratePhase_fuel (s : GameState) :
    (integratePhase s).fuel = s.fuel := by
  simp only [integratePhase]
  split_ifs <;> rfl

/-- The only fuel mutation in `updatePhysics` is the control phase's. -/
theorem updatePhysics_fuel (o : Oracle) (s : GameState) :
    (updatePhysics o s).fuel = (controlPhase s).fuel := by
  simp [updatePhysics]

@[simp] theorem ctrlBackward_fuel (s : GameState) : (ctrlBackward s).fuel = s.fuel := by
  simp only [ctrlBackward]
  split_ifs <;> rfl

@[simp] theorem ctrlBrake_fuel (s : GameState) : (ctrlBrake s).fuel = s.fuel := by
  simp only [ctrlBrake]
  split_ifs <;> rfl

@[simp] theorem ctrlClamp_fuel (m : ℚ) (s : GameState) : (ctrlClamp m s).fuel = s.fuel := by
  simp only [ctrlClamp]
  split_ifs <;> rfl

/-- Fuel effect of the forward branch: consumed and clamped at zero exactly
when forward intent is active and fuel is positive. -/
theorem ctrlForward_fuel (acc : ℚ) (s : GameState) :
    (ctrlForward acc s).fuel =
      if s.keys.forward = true ∧ s.fuel > 0 then
        (if s.fuel - FUEL_CONSUMPTION < 0 then 0 else s.fuel - FUEL_CONSUMPTION)
      else s.fuel := by
  simp only [ctrlForward]
  split_ifs <;> rfl

/-- Fuel effect of the control phase (lines 502-506): consumed and clamped at
zero exactly when forward intent is active and fuel is positive. -/
theorem controlPhase_fuel (s : GameState) :
    (controlPhase s).fuel =
      if s.keys.forward = true ∧ s.fuel > 0 then
        (if s.fuel - FUEL_CONSUMPTION < 0 then 0 else s.fuel - FUEL_CONSUMPTION)
      else s.fuel := by
  simp only [controlPhase, ctrlClamp_fuel, ctrlBrake_fuel, ctrlBackward_fuel]
  exact ctrlForward_fuel _ s

/-! ## Claim C1 -/

set_option maxRecDepth 4000 in
/-- C1: the run ends with the out-of-fuel reason exactly when fuel is depleted
(`fuel ≤ 0`) AND `|velocityX| < 0.1` — the guard of the out-of-fuel terminal
check is exactly that condition; moreover one tick from a flat-terrain state
with `fuel = 0, velocityX = 0` ends the run with the out-of-fuel reason, while
the same state with `velocityX = 5` keeps the run continuing (coasting without
fuel never ends the run). -/
theorem c1_out_of_fuel_terminal :
    (∀ s : GameState, outOfFuelCond s ↔ s.fuel ≤ 0 ∧ |s.car.velocityX| < 0.1)
    ∧ (¬ continuing (tick oracleZero sFuelStop)
        ∧ (tick oracleZero sFuelStop).endReason = some EndReason.outOfFuel)
    ∧ (continuing (tick oracleZero sFuelCoast)
        ∧ (tick oracleZero sFuelCoast).endReason = none) := by
  refine ⟨fun s => ?_, ?_, ?_⟩
  · rw [abs_lt]
    constructor
    · rintro ⟨h1, h2, h3⟩
      exact ⟨h1, h3, h2⟩
    · rintro ⟨h1, h2, h3⟩
      exact ⟨h1, h3, h2⟩
  · with_unfolding_all decide
  · with_unfolding_all decide

/-! ## Claim C2 -/

set_option maxRecDepth 4000 in
/-- C2: the flip terminal condition fires exactly when the rotation, wrapped
to `[0, 2π)`, lies strictly inside `(0.7π, 1.3π)`; the grounded
rotation-smoothing step applied to rotation `π` (toward any slope angle of
magnitude at most `π/2`) still lands inside the band, so the flip fires
regardless; and one tick from a grounded flat-terrain state with rotation
forced to `π` ends the run with the flip reason. -/
theorem c2_flip_band :
    (∀ r : ℚ, flipCond r ↔ jsPi * 0.7 < wrapSpec r ∧ wrapSpec r < jsPi * 1.3)
    ∧ (∀ t : ℚ, |t| ≤ jsPi / 2 → flipCond (groundedRotationStep jsPi t))
    ∧ (¬ continuing (tick oracleFlip sFlip)
        ∧ (tick oracleFlip sFlip).endReason = some EndReason.flipped) := by
  refine ⟨fun r => ?_, fun t ht => ?_, ?_⟩
  · show normalizedRotation r > jsPi * 0.7 ∧ normalizedRotation r < jsPi * 1.3 ↔ _
    rw [normalizedRotation_eq_wrapSpec]
  · have hpi := jsPi_pos
    obtain ⟨ht1, ht2⟩ := abs_le.mp ht
    have hr : groundedRotationStep jsPi t = jsPi * 0.85 + t * 0.15 := by
      unfold groundedRotationStep
      ring
    have h0 : 0 ≤ groundedRotationStep jsPi t := by rw [hr]; nlinarith
    have h1 : groundedRotationStep jsPi t < jsPi * 2 := by rw [hr]; nlinarith
    show normalizedRotation _ > _ ∧ normalizedRotation _ < _
    rw [normalizedRotation_of_mem h0 h1, hr]
    constructor
    · nlinarith
    · nlinarith
  · with_unfolding_all decide


/-- Witness for C2: at slope angle `0` the smoothing hypothesis holds and the
smoothed rotation from `pi` still satisfies the flip condition. -/
theorem c2_flip_band_witness :
    |(0 : ℚ)| ≤ jsPi / 2 ∧ flipCond (groundedRotationStep jsPi 0) :=
  ⟨by with_unfolding_all decide,
   c2_flip_band.2.1 0 (by with_unfolding_all decide)⟩

/-! ## Fuel behavior of the pickup / boost / particle phases -/

@[simp] theorem createParticles_fuel (o : Oracle) (x y : ℚ) (c : String) (n : ℕ) :
    ∀ s : GameState, (createParticles o x y c n s).fuel = s.fuel := by
  induction n with
  | zero => intro s; rfl
  | succ n ih =>
    intro s
    simp [createParticles, ih, bumpRand]

@[simp] theorem activateBoost_fuel (o : Oracle) (s : GameState) :
    (activateBoost o s).fuel = s.fuel := rfl

@[simp] theorem collectCoins_fuel (o : Oracle) (a b c : ℚ) (ps : List Pickup) :
    ∀ s : GameState, (collectCoins o a b c ps s).2.fuel = s.fuel := by
  induction ps with
  | nil => intro s; rfl
  | cons p rest ih =>
    intro s
    simp only [collectCoins]
    split_ifs <;> simp [ih]

@[simp] theorem collectBoosts_fuel (o : Oracle) (a b c : ℚ) (ps : List BoostPad) :
    ∀ s : GameState, (collectBoosts o a b c ps s).2.fuel = s.fuel := by
  induction ps with
  | nil => intro s; rfl
  | cons p rest ih =>
    intro s
    simp only [collectBoosts]
    split_ifs <;> simp [ih, activateBoost, bumpNow]

theorem collectFuelPickups_fuel_nonneg (o : Oracle) (a b c : ℚ) (ps : List Pickup) :
    ∀ s : GameState, 0 ≤ s.fuel → 0 ≤ (collectFuelPickups o a b c ps s).2.fuel := by
  induction ps with
  | nil => intro s h; exact h
  | cons p rest ih =>
    intro s h
    simp only [collectFuelPickups]
    split_ifs
    · exact ih s h
    · apply ih
      simp only [createParticles_fuel]
      show 0 ≤ min MAX_FUEL (s.fuel + FUEL_PICKUP_AMOUNT)
      apply le_min
      · norm_num [MAX_FUEL, INITIAL_FUEL]
      · norm_num [FUEL_PICKUP_AMOUNT]
        linarith
    · exact ih s h

theorem collectFuelPickups_fuel_le (o : Oracle) (a b c : ℚ) (ps : List Pickup) :
    ∀ s : GameState, s.fuel ≤ MAX_FUEL → (collectFuelPickups o a b c ps s).2.fuel ≤ MAX_FUEL := by
  induction ps with
  | nil => intro s h; exact h
  | cons p rest ih =>
    intro s h
    simp only [collectFuelPickups]
    split_ifs
    · exact ih s h
    · apply ih
      simp only [createParticles_fuel]
      show min MAX_FUEL (s.fuel + FUEL_PICKUP_AMOUNT) ≤ MAX_FUEL
      exact min_le_left _ _
    · exact ih s h

theorem checkPickups_fuel_nonneg (o : Oracle) (s : GameState) (h : 0 ≤ s.fuel) :
    0 ≤ (checkPickups o s).fuel := by
  simp only [checkPickups, collectBoosts_fuel, collectCoins_fuel]
  exact collectFuelPickups_fuel_nonneg o _ _ _ s.fuelPickups s h

theorem checkPickups_fuel_le (o : Oracle) (s : GameState) (h : s.fuel ≤ MAX_FUEL) :
    (checkPickups o s).fuel ≤ MAX_FUEL := by
  simp only [checkPickups, collectBoosts_fuel, collectCoins_fuel]
  exact collectFuelPickups_fuel_le o _ _ _ s.fuelPickups s h

@[simp] theorem updateBoost_fuel (o : Oracle) (s : GameState) :
    (updateBoost o s).fuel = s.fuel := by
  simp only [updateBoost]
  split_ifs <;> rfl

@[simp] theorem updateParticles_fuel (s : GameState) :
    (updateParticles s).fuel = s.fuel := rfl

@[simp] theorem updateLevel_fuel (s : GameState) :
    (updateLevel s).fuel = s.fuel := by
  simp only [updateLevel]
  split_ifs <;> rfl

@[simp] theorem updateBackground_fuel (s : GameState) :
    (updateBackground s).fuel = s.fuel := by
  simp only [updateBackground]
  split_ifs <;> rfl

theorem controlPhase_fuel_nonneg (s : GameState) (h : 0 ≤ s.fuel) :
    0 ≤ (controlPhase s).fuel := by
  rw [controlPhase_fuel]
  split_ifs <;> linarith

/-! ## Claim C5 -/

/-- C5: fuel strictly decreases across the physics update on every tick on
which forward intent is active and fuel is positive; fuel never becomes
negative after any tick; and the pickup phase never raises fuel above
`MAX_FUEL` (the refill is additive and capped at `MAX_FUEL`). -/
theorem c5_fuel_invariants :
    (∀ (o : Oracle) (s : GameState), s.keys.forward = true → 0 < s.fuel →
      (updatePhysics o s).fuel < s.fuel)
    ∧ (∀ (o : Oracle) (s : GameState), 0 ≤ s.fuel → 0 ≤ (tick o s).fuel)
    ∧ (∀ (o : Oracle) (s : GameState), s.fuel ≤ MAX_FUEL →
        (checkPickups o s).fuel ≤ MAX_FUEL) := by
  refine ⟨fun o s hf hpos => ?_, fun o s h => ?_, fun o s h => checkPickups_fuel_le o s h⟩
  · rw [updatePhysics_fuel, controlPhase_fuel, if_pos ⟨hf, hpos⟩]
    have hc : (0 : ℚ) < FUEL_CONSUMPTION := by norm_num [FUEL_CONSUMPTION]
    split_ifs <;> linarith
  · unfold tick
    split_ifs with hp
    · simp only [updateBackground_fuel, updateLevel_fuel, updateParticles_fuel, updateBoost_fuel]
      apply checkPickups_fuel_nonneg
      rw [updateTerrain_fuel, updatePhysics_fuel]
      exact controlPhase_fuel_nonneg s h
    · exact h

/-- Witness for C5 at concrete states: forward intent with a full tank
(`sAir`), and the resting scenario state for the bounds. -/
theorem c5_fuel_invariants_witness :
    (updatePhysics oracleZero sAir).fuel < sAir.fuel
    ∧ 0 ≤ (tick oracleZero scenarioBase).fuel
    ∧ (checkPickups oracleZero scenarioBase).fuel ≤ MAX_FUEL :=
  ⟨c5_fuel_invariants.1 oracleZero sAir (by with_unfolding_all decide)
      (by with_unfolding_all decide),
   c5_fuel_invariants.2.1 oracleZero scenarioBase (by with_unfolding_all decide),
   c5_fuel_invariants.2.2 oracleZero scenarioBase (by with_unfolding_all decide)⟩

/-! ## Claim C8 -/

/-- C8: a tick on a state that is not playing mutates nothing, and once a
tick returns `continuing: false`, any sequence of further ticks (without an
explicit reset) leaves the state exactly as it was. -/
theorem c8_terminal_exclusivity :
    (∀ (o : Oracle) (s : GameState), ¬ continuing s → tick o s = s)
    ∧ (∀ (o : Oracle) (s : GameState) (os : List Oracle), ¬ continuing (tick o s) →
        os.foldl (fun st oo => tick oo st) (tick o s) = tick o s) := by
  have h1 : ∀ (o : Oracle) (s : GameState), ¬ continuing s → tick o s = s := by
    intro o s h
    unfold tick
    rw [if_neg h]
  refine ⟨h1, fun o s os h => ?_⟩
  induction os with
  | nil => rfl
  | cons o2 rest ih =>
    simp only [List.foldl_cons]
    rw [h1 o2 _ h]
    exact ih

/-- Witness for C8: ticking an already-ended state is the identity, and so is
any further sequence of ticks. -/
theorem c8_terminal_exclusivity_witness :
    tick oracleZero sDead = sDead
    ∧ [oracleFlip, oracleZero].foldl (fun st oo => tick oo st) (tick oracleZero sDead)
        = tick oracleZero sDead :=
  ⟨c8_terminal_exclusivity.1 oracleZero sDead (by with_unfolding_all decide),
   c8_terminal_exclusivity.2 oracleZero sDead [oracleFlip, oracleZero]
     (by with_unfolding_all decide)⟩


/-! ## Claim C9 -/

/-- C9: when several terminal conditions hold during the same tick, the
recorded end reason is the first in the fixed check order — fell-into-the-
abyss, then flipped, then out-of-fuel — because `endGame` is a no-op once the
state has left `playing`. -/
theorem c9_terminal_priority (s : GameState) (h : s.gameState = GState.playing) :
    (terminalChecks s).endReason =
      if fellCond s then some EndReason.abyss
      else if flipCond s.car.rotation then some EndReason.flipped
      else if outOfFuelCond s then some EndReason.outOfFuel
      else s.endReason := by
  simp only [terminalChecks]
  by_cases h1 : fellCond s
  · rw [if_pos h1, endGame_of_playing _ h]
    have hR : ∀ r : EndReason,
        endGame r { s with gameState := GState.gameOver, endReason := some EndReason.abyss }
          = { s with gameState := GState.gameOver, endReason := some EndReason.abyss } :=
      fun r => endGame_of_not_playing r (fun hh => GState.noConfusion hh)
    simp only [hR, ite_self]
    exact (if_pos h1).symm
  · rw [if_neg h1]
    by_cases h2 : flipCond s.car.rotation
    · rw [if_pos h2, endGame_of_playing _ h]
      have hR : ∀ r : EndReason,
          endGame r { s with gameState := GState.gameOver, endReason := some EndReason.flipped }
            = { s with gameState := GState.gameOver, endReason := some EndReason.flipped } :=
        fun r => endGame_of_not_playing r (fun hh => GState.noConfusion hh)
      simp only [hR, ite_self]
      rw [if_neg h1, if_pos h2]
    · rw [if_neg h2]
      by_cases h3 : outOfFuelCond s
      · rw [if_pos h3, endGame_of_playing _ h]
        rw [if_neg h1, if_neg h2, if_pos h3]
      · rw [if_neg h3]
        rw [if_neg h1, if_neg h2, if_neg h3]

/-- Witness for C9: a state in which all three terminal conditions hold ends
with the abyss reason. -/
theorem c9_terminal_priority_witness :
    (terminalChecks sAll).endReason = some EndReason.abyss := by
  rw [c9_terminal_priority sAll (by with_unfolding_all decide)]
  with_unfolding_all decide

/-! ## Claim C10 -/

/-- The coin spawn draw can never succeed once the level is 20 or beyond:
the success probability `0.1 * (1 - level * 0.05)` is nonpositive while
`Math.random()` draws are nonnegative. -/
theorem spawnCoin_coins_of_level (o : Oracle) (x y : ℚ) (s : GameState)
    (hr : ∀ k, 0 ≤ o.rand k) (hl : 20 ≤ s.currentLevel) :
    (spawnCoin o x y s).coins = s.coins := by
  simp only [spawnCoin]
  split_ifs with hc
  · exfalso
    have h20 : (20 : ℚ) ≤ (s.currentLevel : ℚ) := by exact_mod_cast hl
    have h0 := hr s.randIdx
    simp only [peekRand, bumpRand, COIN_PICKUP_CHANCE] at hc
    norm_num at hc
    linarith
  · rfl

/-- C10: once the current level reaches 20, the per-sample coin spawn
probability `0.1 * (1 - level*0.05)` is nonpositive, so for every
(nonnegative) random draw the terrain generator appends no further coin; and
the level is monotone, so this persists for the rest of the run. -/
theorem c10_no_coins_past_level_19 :
    (∀ (o : Oracle) (s : GameState) (x : ℚ) (i : ℤ), (∀ k, 0 ≤ o.rand k) →
      20 ≤ s.currentLevel → (addTerrainSegment o x i s).coins = s.coins)
    ∧ (∀ s : GameState, s.currentLevel ≤ (updateLevel s).currentLevel) := by
  constructor
  · intro o s x i hr hl
    unfold addTerrainSegment
    rw [spawnCoin_coins_of_level o _ _ _ hr (by simp [hl])]
    simp
  · intro s
    simp only [updateLevel]
    split_ifs with h
    · exact le_of_lt h
    · exact le_refl _

/-- Witness for C10: a concrete level-20 state gains no coin from a new
terrain segment, and its level does not decrease. -/
theorem c10_no_coins_witness :
    (addTerrainSegment oracleZero 750 25 sLevel20).coins = sLevel20.coins
    ∧ sLevel20.currentLevel ≤ (updateLevel sLevel20).currentLevel :=
  ⟨c10_no_coins_past_level_19.1 oracleZero sLevel20 750 25 (fun _ => le_refl 0)
      (by with_unfolding_all decide),
   c10_no_coins_past_level_19.2 sLevel20⟩


/-! ## Sorted-sample-buffer helpers -/

theorem lastSampleX_cons_cons (a b : Sample) (l : List Sample) :
    lastSampleX (a :: b :: l) = lastSampleX (b :: l) := by
  simp [lastSampleX, List.getLastD_cons]

theorem lastSampleX_append_singleton (p : Sample) :
    ∀ t : List Sample, lastSampleX (t ++ [p]) = p.x := by
  intro t
  induction t with
  | nil => rfl
  | cons a rest ih =>
    cases rest with
    | nil =>
      show lastSampleX (a :: p :: []) = p.x
      rw [lastSampleX_cons_cons]
      rfl
    | cons b r =>
      show lastSampleX (a :: ((b :: r) ++ [p])) = p.x
      rw [show a :: ((b :: r) ++ [p]) = a :: b :: (r ++ [p]) from rfl, lastSampleX_cons_cons]
      exact ih

theorem mem_le_lastSampleX {t : List Sample}
    (hs : t.Pairwise (fun a b => a.x < b.x)) :
    ∀ p ∈ t, p.x ≤ lastSampleX t := by
  induction t with
  | nil => intro p hp; cases hp
  | cons a rest ih =>
    intro p hp
    cases rest with
    | nil =>
      rcases List.mem_cons.mp hp with rfl | hp'
      · exact le_refl _
      · cases hp'
    | cons b r =>
      rw [lastSampleX_cons_cons]
      rcases List.mem_cons.mp hp with rfl | hp'
      · have hb : p.x < b.x := (List.pairwise_cons.mp hs).1 b (by simp)
        have hbl := ih (List.pairwise_cons.mp hs).2 b (by simp)
        linarith
      · exact ih (List.pairwise_cons.mp hs).2 p hp'

theorem lastSampleX_mem : ∀ {t : List Sample}, t ≠ [] → ∃ p ∈ t, p.x = lastSampleX t := by
  intro t
  induction t with
  | nil => intro h; cases h rfl
  | cons a rest ih =>
    intro _
    cases rest with
    | nil => exact ⟨a, by simp, rfl⟩
    | cons b r =>
      obtain ⟨p, hp, he⟩ := ih (by simp)
      exact ⟨p, by simp [hp], by rw [lastSampleX_cons_cons]; exact he⟩

/-! ## Claim C4: height-query interpolation -/

theorem getTerrainHeightAt_bracket :
    ∀ (l1 : List Sample) (p1 p2 : Sample) (l2 : List Sample) (w : ℚ),
      (l1 ++ p1 :: p2 :: l2).Pairwise (fun a b => a.x < b.x) →
      p1.x ≤ w → w ≤ p2.x →
      getTerrainHeightAt (l1 ++ p1 :: p2 :: l2) w
        = p1.y + (p2.y - p1.y) * ((w - p1.x) / (p2.x - p1.x)) := by
  intro l1
  induction l1 with
  | nil =>
    intro p1 p2 l2 w _ h1 h2
    simp only [List.nil_append, getTerrainHeightAt]
    rw [if_pos ⟨h1, h2⟩]
  | cons a l1' ih =>
    intro p1 p2 l2 w hs h1 h2
    cases l1' with
    | nil =>
      simp only [List.cons_append, List.nil_append, getTerrainHeightAt]
      by_cases hb : a.x ≤ w ∧ w ≤ p1.x
      · rw [if_pos hb]
        have hw : w = p1.x := le_antisymm hb.2 h1
        have hax : a.x < p1.x :=
          (List.pairwise_cons.mp (hs : (a :: (p1 :: p2 :: l2)).Pairwise _)).1 p1 (by simp)
        subst hw
        have hne : p1.x - a.x ≠ 0 := sub_ne_zero_of_ne (Ne.symm (ne_of_lt hax))
        rw [div_self hne, sub_self, zero_div, mul_zero, add_zero, mul_one]
        ring
      · rw [if_neg hb]
        exact ih p1 p2 l2 w
          (List.pairwise_cons.mp (hs : (a :: (p1 :: p2 :: l2)).Pairwise _)).2 h1 h2
    | cons b l1'' =>
      simp only [List.cons_append, getTerrainHeightAt]
      have hs' :=
        List.pairwise_cons.mp (hs : (a :: (b :: (l1'' ++ p1 :: p2 :: l2))).Pairwise _)
      have hs'' := List.pairwise_cons.mp hs'.2
      have hbx : b.x < p1.x := hs''.1 p1 (by simp)
      have hcontr : ¬ (a.x ≤ w ∧ w ≤ b.x) := by
        rintro ⟨_, hbw⟩
        linarith
      rw [if_neg hcontr]
      exact ih p1 p2 l2 w hs'.2 h1 h2

theorem getTerrainHeightAt_default :
    ∀ (t : List Sample) (w : ℚ),
      t.Pairwise (fun a b => a.x < b.x) → t ≠ [] →
      (w < (t.headD defaultSample).x ∨ lastSampleX t < w) →
      getTerrainHeightAt t w = canvasHeight * 0.6 := by
  intro t
  induction t with
  | nil => intro w _ hne _; cases hne rfl
  | cons p1 rest ih =>
    intro w hs _ hout
    cases rest with
    | nil => rfl
    | cons p2 r =>
      simp only [getTerrainHeightAt]
      have hx12 : p1.x < p2.x := (List.pairwise_cons.mp hs).1 p2 (by simp)
      have hnb : ¬ (p1.x ≤ w ∧ w ≤ p2.x) := by
        rintro ⟨h1, h2⟩
        rcases hout with hlt | hgt
        · simp only [List.headD_cons] at hlt
          linarith
        · rw [lastSampleX_cons_cons] at hgt
          have hll : p2.x ≤ lastSampleX (p2 :: r) :=
            mem_le_lastSampleX (List.pairwise_cons.mp hs).2 p2 (by simp)
          linarith
      rw [if_neg hnb]
      apply ih w (List.pairwise_cons.mp hs).2 (by simp)
      rcases hout with hlt | hgt
      · left
        simp only [List.headD_cons] at hlt ⊢
        linarith
      · right
        rwa [lastSampleX_cons_cons] at hgt

/-- C4: on a strictly ascending sample buffer the height query returns the
exact linear interpolation of the bracketing adjacent pair; exactly the
sample height at a sample's own worldX; and the default baseline height
outside the buffered range. -/
theorem c4_interpolation :
    (∀ (l1 : List Sample) (p1 p2 : Sample) (l2 : List Sample) (w : ℚ),
      (l1 ++ p1 :: p2 :: l2).Pairwise (fun a b => a.x < b.x) →
      p1.x ≤ w → w ≤ p2.x →
      getTerrainHeightAt (l1 ++ p1 :: p2 :: l2) w
        = p1.y + (p2.y - p1.y) * ((w - p1.x) / (p2.x - p1.x)))
    ∧ (∀ (l1 : List Sample) (p1 p2 : Sample) (l2 : List Sample),
      (l1 ++ p1 :: p2 :: l2).Pairwise (fun a b => a.x < b.x) →
      getTerrainHeightAt (l1 ++ p1 :: p2 :: l2) p1.x = p1.y)
    ∧ (∀ (t : List Sample) (w : ℚ),
      t.Pairwise (fun a b => a.x < b.x) → t ≠ [] →
      (w < (t.headD defaultSample).x ∨ lastSampleX t < w) →
      getTerrainHeightAt t w = canvasHeight * 0.6) := by
  refine ⟨getTerrainHeightAt_bracket, fun l1 p1 p2 l2 hs => ?_, getTerrainHeightAt_default⟩
  have h12 : p1.x < p2.x := by
    have hp := (List.pairwise_append.mp hs).2.1
    exact (List.pairwise_cons.mp hp).1 p2 (by simp)
  rw [getTerrainHeightAt_bracket l1 p1 p2 l2 p1.x hs (le_refl _) (le_of_lt h12)]
  rw [sub_self, zero_div, mul_zero, add_zero]

/-- Witness for C4 on a concrete three-sample buffer. -/
theorem c4_interpolation_witness :
    getTerrainHeightAt
        [{ x := 0, y := 100, isOnBridge := false }, { x := 30, y := 160, isOnBridge := false },
         { x := 60, y := 40, isOnBridge := false }] 45
      = 160 + (40 - 160) * ((45 - 30) / (60 - 30))
    ∧ getTerrainHeightAt
        [{ x := 0, y := 100, isOnBridge := false }, { x := 30, y := 160, isOnBridge := false },
         { x := 60, y := 40, isOnBridge := false }] 30 = 160
    ∧ getTerrainHeightAt
        [{ x := 0, y := 100, isOnBridge := false }, { x := 30, y := 160, isOnBridge := false },
         { x := 60, y := 40, isOnBridge := false }] 2000 = canvasHeight * 0.6 :=
  ⟨c4_interpolation.1 [{ x := 0, y := 100, isOnBridge := false }]
      { x := 30, y := 160, isOnBridge := false } { x := 60, y := 40, isOnBridge := false } [] 45
      (by with_unfolding_all decide) (by with_unfolding_all decide) (by with_unfolding_all decide),
   c4_interpolation.2.1 [{ x := 0, y := 100, isOnBridge := false }]
      { x := 30, y := 160, isOnBridge := false } { x := 60, y := 40, isOnBridge := false } []
      (by with_unfolding_all decide),
   c4_interpolation.2.2
      [{ x := 0, y := 100, isOnBridge := false }, { x := 30, y := 160, isOnBridge := false },
       { x := 60, y := 40, isOnBridge := false }] 2000
      (by with_unfolding_all decide) (by with_unfolding_all decide)
      (Or.inr (by with_unfolding_all decide))⟩


/-! ## Claim C3: terrain window bounds -/

theorem dropOld_spec (off : ℚ) :
    ∀ t : List Sample, t.Pairwise (fun a b => a.x < b.x) → t ≠ [] →
      off - 100 ≤ lastSampleX t →
      (dropOld off t ≠ []
      ∧ (dropOld off t).Pairwise (fun a b => a.x < b.x)
      ∧ (∀ p ∈ dropOld off t, off - 100 ≤ p.x)
      ∧ lastSampleX (dropOld off t) = lastSampleX t) := by
  intro t
  induction t with
  | nil => intro _ hne _; cases hne rfl
  | cons a rest ih =>
    intro hs _ hlast
    simp only [dropOld]
    split_ifs with h
    · cases rest with
      | nil =>
        exfalso
        have he : lastSampleX [a] = a.x := rfl
        rw [he] at hlast
        linarith
      | cons b r =>
        rw [lastSampleX_cons_cons] at hlast
        have hres := ih (List.pairwise_cons.mp hs).2 (by simp) hlast
        rw [lastSampleX_cons_cons]
        exact hres
    · refine ⟨by simp, hs, ?_, rfl⟩
      intro p hp
      rcases List.mem_cons.mp hp with rfl | hp'
      · linarith [not_lt.mp h]
      · have h2 := (List.pairwise_cons.mp hs).1 p hp'
        have h3 := not_lt.mp h
        linarith

theorem addTerrainSegment_lastSampleX (o : Oracle) (x : ℚ) (i : ℤ) (s : GameState) :
    lastSampleX (addTerrainSegment o x i s).terrain = x := by
  obtain ⟨y, hy⟩ := addTerrainSegment_terrain o x i s
  rw [hy, lastSampleX_append_singleton]

theorem extendLoop_spec (o : Oracle) :
    ∀ (n : ℕ) (s : GameState),
      s.terrain ≠ [] →
      s.terrain.Pairwise (fun a b => a.x < b.x) →
      (∀ p ∈ s.terrain, s.terrainOffset - 100 ≤ p.x) →
      ((extendLoop o n s).terrain ≠ []
      ∧ (extendLoop o n s).terrain.Pairwise (fun a b => a.x < b.x)
      ∧ (∀ p ∈ (extendLoop o n s).terrain, s.terrainOffset - 100 ≤ p.x)
      ∧ (extendCount s ≤ n → targetX s ≤ lastSampleX (extendLoop o n s).terrain)) := by
  intro n
  have hw : (0 : ℚ) < HILL_SEGMENT_WIDTH := by norm_num [HILL_SEGMENT_WIDTH]
  induction n with
  | zero =>
    intro s hne hs hbound
    refine ⟨hne, hs, hbound, fun hc => ?_⟩
    unfold extendCount at hc
    have h0 : (⌈(targetX s - lastSampleX s.terrain) / HILL_SEGMENT_WIDTH⌉ : ℤ) ≤ 0 := by omega
    have h1 : (targetX s - lastSampleX s.terrain) / HILL_SEGMENT_WIDTH ≤ ((0 : ℤ) : ℚ) :=
      Int.ceil_le.mp h0
    have h2 := (div_le_iff₀ hw).mp (by exact_mod_cast h1)
    show targetX s ≤ lastSampleX s.terrain
    linarith
  | succ n ih =>
    intro s hne hs hbound
    simp only [extendLoop]
    split_ifs with hlt
    · obtain ⟨y, hy⟩ :=
        addTerrainSegment_terrain o (lastSampleX s.terrain + HILL_SEGMENT_WIDTH)
          (s.terrain.length : ℤ) s
      set s2 := addTerrainSegment o (lastSampleX s.terrain + HILL_SEGMENT_WIDTH)
        (s.terrain.length : ℤ) s with hs2
      have hoff : s2.terrainOffset = s.terrainOffset := by
        rw [hs2]; simp
      have hcw : s2.canvasWidth = s.canvasWidth := by
        rw [hs2]; simp
      have htar : targetX s2 = targetX s := by
        unfold targetX
        rw [hoff, hcw]
      have hlast2 : lastSampleX s2.terrain = lastSampleX s.terrain + HILL_SEGMENT_WIDTH := by
        rw [hs2, addTerrainSegment_lastSampleX]
      have hne2 : s2.terrain ≠ [] := by
        rw [hs2, hy]
        simp
      have hs2p : s2.terrain.Pairwise (fun a b => a.x < b.x) := by
        rw [hs2, hy, List.pairwise_append]
        refine ⟨hs, by simp, ?_⟩
        intro p hp q hq
        rw [List.mem_singleton] at hq
        subst hq
        have hle := mem_le_lastSampleX hs p hp
        show p.x < lastSampleX s.terrain + HILL_SEGMENT_WIDTH
        linarith
      have hb2 : ∀ p ∈ s2.terrain, s2.terrainOffset - 100 ≤ p.x := by
        rw [hoff, hs2, hy]
        intro p hp
        rcases List.mem_append.mp hp with hp1 | hp2
        · exact hbound p hp1
        · rw [List.mem_singleton] at hp2
          subst hp2
          obtain ⟨q, hq, hqe⟩ := lastSampleX_mem hne
          have hq2 := hbound q hq
          show s.terrainOffset - 100 ≤ lastSampleX s.terrain + HILL_SEGMENT_WIDTH
          rw [← hqe] at *
          linarith
      have ihres := ih s2 hne2 hs2p hb2
      refine ⟨ihres.1, ihres.2.1, ?_, fun hcnt => ?_⟩
      · rw [← hoff]
        exact ihres.2.2.1
      · have hcnt2 : extendCount s2 ≤ n := by
          unfold extendCount at hcnt ⊢
          rw [htar, hlast2]
          have harith : (targetX s - (lastSampleX s.terrain + HILL_SEGMENT_WIDTH))
              / HILL_SEGMENT_WIDTH
              = (targetX s - lastSampleX s.terrain) / HILL_SEGMENT_WIDTH - 1 := by
            field_simp
            ring
          rw [harith, Int.ceil_sub_one]
          have hpos : 0 < ⌈(targetX s - lastSampleX s.terrain) / HILL_SEGMENT_WIDTH⌉ :=
            Int.ceil_pos.mpr (div_pos (by linarith) hw)
          omega
        have hres := ihres.2.2.2 hcnt2
        rw [htar] at hres
        exact hres
    · exact ⟨hne, hs, hbound, fun _ => not_lt.mp hlt⟩

/-- C3: after the terrain-window update, the buffer's leading (last) sample
is at least `terrainOffset + viewportWidth + leadingMargin - segmentWidth`
ahead (the code in fact guarantees the stronger bound without the
`- segmentWidth` slack), and no retained sample lies behind
`terrainOffset - trailingMargin` — given the windowing preconditions (a
nonempty, strictly ascending buffer whose last sample has not fallen behind
the trailing edge), which every reachable buffer satisfies. -/
theorem c3_window_bounds (o : Oracle) (s : GameState)
    (hne : s.terrain ≠ [])
    (hs : s.terrain.Pairwise (fun a b => a.x < b.x))
    (hlast : s.terrainOffset - 100 ≤ lastSampleX s.terrain) :
    ((updateTerrain o s).terrainOffset + (updateTerrain o s).canvasWidth + 100
        - HILL_SEGMENT_WIDTH ≤ lastSampleX (updateTerrain o s).terrain)
    ∧ ∀ p ∈ (updateTerrain o s).terrain, ¬ (p.x < (updateTerrain o s).terrainOffset - 100) := by
  have hdrop := dropOld_spec s.terrainOffset s.terrain hs hne hlast
  have hterr : (updateTerrain o s).terrain =
      (extendLoop o (extendCount { s with terrain := dropOld s.terrainOffset s.terrain })
        { s with terrain := dropOld s.terrainOffset s.terrain }).terrain := rfl
  have hoffu : (updateTerrain o s).terrainOffset = s.terrainOffset := by simp
  have hcwu : (updateTerrain o s).canvasWidth = s.canvasWidth := by simp
  have hext := extendLoop_spec o
    (extendCount { s with terrain := dropOld s.terrainOffset s.terrain })
    { s with terrain := dropOld s.terrainOffset s.terrain } hdrop.1 hdrop.2.1
    (fun p hp => hdrop.2.2.1 p hp)
  constructor
  · rw [hterr, hoffu, hcwu]
    have hle := hext.2.2.2 (le_refl _)
    have ht1 : targetX { s with terrain := dropOld s.terrainOffset s.terrain }
        = s.terrainOffset + s.canvasWidth + 100 := rfl
    rw [ht1] at hle
    have hwpos : (0 : ℚ) < HILL_SEGMENT_WIDTH := by norm_num [HILL_SEGMENT_WIDTH]
    linarith
  · rw [hterr, hoffu]
    intro p hp
    have hb := hext.2.2.1 p hp
    intro hcon
    exact absurd hb (by push_neg; exact (by simpa using hcon))

/-- Witness for C3 on the concrete flat-terrain scenario state. -/
theorem c3_window_bounds_witness :
    ((updateTerrain oracleZero scenarioBase).terrainOffset
        + (updateTerrain oracleZero scenarioBase).canvasWidth + 100 - HILL_SEGMENT_WIDTH
      ≤ lastSampleX (updateTerrain oracleZero scenarioBase).terrain)
    ∧ ∀ p ∈ (updateTerrain oracleZero scenarioBase).terrain,
        ¬ (p.x < (updateTerrain oracleZero scenarioBase).terrainOffset - 100) :=
  c3_window_bounds oracleZero scenarioBase (by with_unfolding_all decide)
    (by with_unfolding_all decide) (by with_unfolding_all decide)


/-! ## Claim C7: control application -/

@[simp] theorem ctrlForward_keys (acc : ℚ) (s : GameState) :
    (ctrlForward acc s).keys = s.keys := by
  simp only [ctrlForward]
  split_ifs <;> rfl

@[simp] theorem ctrlBackward_keys (s : GameState) : (ctrlBackward s).keys = s.keys := by
  simp only [ctrlBackward]
  split_ifs <;> rfl

@[simp] theorem ctrlBrake_keys (s : GameState) : (ctrlBrake s).keys = s.keys := by
  simp only [ctrlBrake]
  split_ifs <;> rfl

theorem ctrlForward_velocityX (acc : ℚ) (s : GameState) :
    (ctrlForward acc s).car.velocityX =
      if s.keys.forward = true ∧ s.fuel > 0 then s.car.velocityX + acc
      else s.car.velocityX := by
  simp only [ctrlForward]
  split_ifs <;> rfl

theorem ctrlBackward_velocityX (s : GameState) :
    (ctrlBackward s).car.velocityX =
      if s.keys.backward = true then s.car.velocityX - ACCELERATION * 0.8
      else s.car.velocityX := by
  simp only [ctrlBackward]
  split_ifs <;> rfl

theorem ctrlBrake_velocityX (s : GameState) :
    (ctrlBrake s).car.velocityX =
      if s.keys.brake = true then s.car.velocityX * (1 - BRAKE_FORCE)
      else s.car.velocityX := by
  simp only [ctrlBrake]
  split_ifs <;> rfl

theorem ctrlClamp_velocityX_of_inRange (m : ℚ) (s : GameState)
    (h1 : REVERSE_SPEED ≤ s.car.velocityX) (h2 : s.car.velocityX ≤ m) :
    (ctrlClamp m s).car.velocityX = s.car.velocityX := by
  simp only [ctrlClamp]
  rw [if_neg (not_lt.mpr h2), if_neg (not_lt.mpr h1)]

theorem ctrlForward_onGround (acc : ℚ) (s : GameState) (b : Bool) :
    ctrlForward acc { s with car := { s.car with onGround := b } }
      = { ctrlForward acc s with car := { (ctrlForward acc s).car with onGround := b } } := by
  simp only [ctrlForward]
  split_ifs <;> rfl

theorem ctrlBackward_onGround (s : GameState) (b : Bool) :
    ctrlBackward { s with car := { s.car with onGround := b } }
      = { ctrlBackward s with car := { (ctrlBackward s).car with onGround := b } } := by
  simp only [ctrlBackward]
  split_ifs <;> rfl

theorem ctrlBrake_onGround (s : GameState) (b : Bool) :
    ctrlBrake { s with car := { s.car with onGround := b } }
      = { ctrlBrake s with car := { (ctrlBrake s).car with onGround := b } } := by
  simp only [ctrlBrake]
  split_ifs <;> rfl

theorem ctrlClamp_onGround (m : ℚ) (s : GameState) (b : Bool) :
    ctrlClamp m { s with car := { s.car with onGround := b } }
      = { ctrlClamp m s with car := { (ctrlClamp m s).car with onGround := b } } := by
  simp only [ctrlClamp]
  split_ifs <;> rfl

/-- C7 (amended): the backward deceleration is applied on every tick
regardless of the grounded/airborne state, and so is the forward
acceleration — the whole control phase commutes with the `onGround` flag;
with brake inactive and the clamps idle, the resulting velocity is exactly
`velocityX + (forward term) - (backward term)`, where the forward term is the
boost-scaled acceleration gated only by `forward intent ∧ fuel > 0`; fuel is
consumed exactly under that same gate. -/
theorem c7_control_application :
    (∀ (s : GameState) (b : Bool),
        controlPhase { s with car := { s.car with onGround := b } }
          = { controlPhase s with car := { (controlPhase s).car with onGround := b } })
    ∧ (∀ s : GameState, s.keys.brake = false →
        REVERSE_SPEED ≤ s.car.velocityX
          + (if s.keys.forward = true ∧ s.fuel > 0 then
              (if s.boostActive = true then ACCELERATION * 1.5 else ACCELERATION) else 0)
          - (if s.keys.backward = true then ACCELERATION * 0.8 else 0) →
        s.car.velocityX
          + (if s.keys.forward = true ∧ s.fuel > 0 then
              (if s.boostActive = true then ACCELERATION * 1.5 else ACCELERATION) else 0)
          - (if s.keys.backward = true then ACCELERATION * 0.8 else 0)
          ≤ (if s.boostActive = true then MAX_SPEED * BOOST_SPEED_MULTIPLIER else MAX_SPEED) →
        (controlPhase s).car.velocityX = s.car.velocityX
          + (if s.keys.forward = true ∧ s.fuel > 0 then
              (if s.boostActive = true then ACCELERATION * 1.5 else ACCELERATION) else 0)
          - (if s.keys.backward = true then ACCELERATION * 0.8 else 0))
    ∧ (∀ s : GameState, (controlPhase s).fuel =
        if s.keys.forward = true ∧ s.fuel > 0 then
          (if s.fuel - FUEL_CONSUMPTION < 0 then 0 else s.fuel - FUEL_CONSUMPTION)
        else s.fuel) := by
  refine ⟨fun s b => ?_, fun s hbrake h1 h2 => ?_, controlPhase_fuel⟩
  · simp only [controlPhase]
    rw [ctrlForward_onGround, ctrlBackward_onGround, ctrlBrake_onGround, ctrlClamp_onGround]
  · have hvF : (ctrlForward (if s.boostActive = true then ACCELERATION * 1.5 else ACCELERATION)
        s).car.velocityX
        = s.car.velocityX + (if s.keys.forward = true ∧ s.fuel > 0 then
            (if s.boostActive = true then ACCELERATION * 1.5 else ACCELERATION) else 0) := by
      rw [ctrlForward_velocityX]
      split_ifs <;> ring
    have hvB : (ctrlBackward (ctrlForward
        (if s.boostActive = true then ACCELERATION * 1.5 else ACCELERATION) s)).car.velocityX
        = s.car.velocityX + (if s.keys.forward = true ∧ s.fuel > 0 then
            (if s.boostActive = true then ACCELERATION * 1.5 else ACCELERATION) else 0)
          - (if s.keys.backward = true then ACCELERATION * 0.8 else 0) := by
      rw [ctrlBackward_velocityX, ctrlForward_keys, hvF]
      split_ifs <;> ring
    have hvK : (ctrlBrake (ctrlBackward (ctrlForward
        (if s.boostActive = true then ACCELERATION * 1.5 else ACCELERATION) s))).car.velocityX
        = s.car.velocityX + (if s.keys.forward = true ∧ s.fuel > 0 then
            (if s.boostActive = true then ACCELERATION * 1.5 else ACCELERATION) else 0)
          - (if s.keys.backward = true then ACCELERATION * 0.8 else 0) := by
      rw [ctrlBrake_velocityX, ctrlBackward_keys, ctrlForward_keys, hbrake]
      rw [if_neg (by simp)]
      exact hvB
    show (ctrlClamp _ _).car.velocityX = _
    rw [ctrlClamp_velocityX_of_inRange _ _ (by rw [hvK]; exact h1) (by rw [hvK]; exact h2)]
    exact hvK

set_option maxRecDepth 4000 in
/-- Counterexample to C7 as stated: with forward intent held, positive fuel
and the car fully airborne, one physics update still applies the forward
acceleration (the new horizontal speed is the accelerated speed damped by air
resistance, not merely the damped old speed) and still consumes fuel. -/
theorem c7_counterexample :
    (updatePhysics oracleZero sAir).car.onGround = false
    ∧ (updatePhysics oracleZero sAir).car.velocityX
        = (sAir.car.velocityX + ACCELERATION) * AIR_RESISTANCE
    ∧ (updatePhysics oracleZero sAir).car.velocityX ≠ sAir.car.velocityX * AIR_RESISTANCE
    ∧ (updatePhysics oracleZero sAir).fuel ≠ sAir.fuel := by
  refine ⟨by with_unfolding_all decide, ?_, ?_, ?_⟩
  · exact le_antisymm (by with_unfolding_all decide) (by with_unfolding_all decide)
  · exact ne_of_gt (by with_unfolding_all decide)
  · exact ne_of_lt (by with_unfolding_all decide)

/-- Witness for C7 (amended) at the concrete airborne forward-driving state. -/
theorem c7_control_application_witness :
    (controlPhase sAir).car.velocityX = sAir.car.velocityX
      + (if sAir.keys.forward = true ∧ sAir.fuel > 0 then
          (if sAir.boostActive = true then ACCELERATION * 1.5 else ACCELERATION) else 0)
      - (if sAir.keys.backward = true then ACCELERATION * 0.8 else 0) :=
  c7_control_application.2.1 sAir (by with_unfolding_all decide)
    (by with_unfolding_all decide) (by with_unfolding_all decide)


/-! ## Claim C6: bridge spacing -/

theorem getLastD_mem {α : Type} : ∀ (l : List α) (d : α), l ≠ [] → l.getLastD d ∈ l
  | [x], _, _ => by simp [List.getLastD_cons]
  | x :: y :: ys, d, _ => by
    rw [List.getLastD_cons]
    exact List.mem_cons_of_mem x (getLastD_mem (y :: ys) x (by simp))

theorem getLastD_append_singleton {α : Type} (a : α) :
    ∀ (l : List α) (d : α), (l ++ [a]).getLastD d = a := by
  intro l
  induction l with
  | nil => intro d; rfl
  | cons x xs ih =>
    intro d
    rw [List.cons_append, List.getLastD_cons]
    exact ih x

theorem BridgeInv_congr {s t : GameState} (hb : t.bridges = s.bridges)
    (hl : t.lastBridgeX = s.lastBridgeX) (hn : t.nextBridgeX = s.nextBridgeX)
    (h : BridgeInv s) : BridgeInv t := by
  unfold BridgeInv at h ⊢
  rw [hb, hl, hn]
  exact h

theorem spawnBridge_of_no_spawn (o : Oracle) (x y : ℚ) (br : Bool) (s : GameState)
    (h : ¬ (x ≥ s.lastBridgeX + s.nextBridgeX ∧ br = false)) :
    spawnBridge o x y br s = s := by
  simp only [spawnBridge]
  rw [if_neg h]

theorem spawnBridge_of_spawn (o : Oracle) (x y : ℚ) (br : Bool) (s : GameState)
    (h : x ≥ s.lastBridgeX + s.nextBridgeX ∧ br = false) :
    spawnBridge o x y br s =
      { bumpRand (bumpRand s) with
        bridges := s.bridges ++
          [{ startX := x, endX := x + BRIDGE_LENGTH, y := y,
             wooden := decide (peekRand o s > 0.5) }],
        lastBridgeX := x,
        nextBridgeX := (BRIDGE_MIN_DISTANCE
          + peekRand o (bumpRand s) * (BRIDGE_MAX_DISTANCE - BRIDGE_MIN_DISTANCE)) * 10 } := by
  simp only [spawnBridge]
  rw [if_pos h]
  rfl

theorem spawnBridge_BridgeInv (o : Oracle) (x y : ℚ) (br : Bool) (s : GameState)
    (hr : ∀ k : ℕ, 0 ≤ o.rand k) (h : BridgeInv s) : BridgeInv (spawnBridge o x y br s) := by
  by_cases hc : x ≥ s.lastBridgeX + s.nextBridgeX ∧ br = false
  · rw [spawnBridge_of_spawn o x y br s hc]
    obtain ⟨hchain, hlen, hlast, hnext⟩ := h
    refine ⟨?_, ?_, ?_, ?_⟩
    · apply List.Chain'.append hchain (List.chain'_singleton _)
      intro a ha b hb
      simp only [List.head?_cons, Option.mem_def, Option.some.injEq] at hb
      subst hb
      have hne : s.bridges ≠ [] := by
        intro hnil
        rw [hnil] at ha
        simp at ha
      have haeq : s.bridges.getLastD dummyBridge = a := by
        rw [List.getLastD_eq_getLast?, Option.mem_def.mp ha]
        rfl
      have hmem : a ∈ s.bridges := by
        rw [← haeq]
        exact getLastD_mem s.bridges dummyBridge hne
      have hend := hlen a hmem
      have hlx := hlast hne
      rw [haeq] at hlx
      have h1 := hc.1
      show BRIDGE_MIN_DISTANCE * 10 - BRIDGE_LENGTH ≤ x - a.endX
      rw [hend]
      linarith
    · intro b hb
      rcases List.mem_append.mp hb with hb1 | hb2
      · exact hlen b hb1
      · simp only [List.mem_singleton] at hb2
        subst hb2
        rfl
    · intro _
      rw [getLastD_append_singleton]
    · have h1 : (0 : ℚ) ≤ peekRand o (bumpRand s) := hr _
      show BRIDGE_MIN_DISTANCE * 10 ≤ (BRIDGE_MIN_DISTANCE
        + peekRand o (bumpRand s) * (BRIDGE_MAX_DISTANCE - BRIDGE_MIN_DISTANCE)) * 10
      have hm : BRIDGE_MIN_DISTANCE = 250 := rfl
      have hM : BRIDGE_MAX_DISTANCE = 400 := rfl
      rw [hm, hM]
      linarith
  · rw [spawnBridge_of_no_spawn o x y br s hc]
    exact h

theorem addTerrainSegment_BridgeInv (o : Oracle) (x : ℚ) (i : ℤ) (s : GameState)
    (hr : ∀ k : ℕ, 0 ≤ o.rand k) (h : BridgeInv s) :
    BridgeInv (addTerrainSegment o x i s) := by
  have houter : ∀ (y : ℚ) (t : GameState), BridgeInv t →
      BridgeInv (spawnCoin o x y (spawnBoost o x y (spawnFuel o x y t))) := by
    intro y t ht
    exact BridgeInv_congr (by simp) (by simp) (by simp) ht
  simp only [addTerrainSegment]
  apply houter
  apply spawnBridge_BridgeInv o _ _ _ _ hr
  exact BridgeInv_congr (by simp) (by simp) (by simp) h

theorem genFrom_BridgeInv (o : Oracle) (hr : ∀ k : ℕ, 0 ≤ o.rand k) :
    ∀ (n a : ℕ) (s : GameState), BridgeInv s → BridgeInv (genFrom o a n s) := by
  intro n
  induction n with
  | zero => intro a s h; exact h
  | succ n ih =>
    intro a s h
    exact ih (a + 1) _ (addTerrainSegment_BridgeInv o _ _ s hr h)

theorem genSegments_eq_genFrom (o : Oracle) (s : GameState) (n : ℕ) :
    genSegments o s n = genFrom o 0 n s := by
  have h : ∀ (n a : ℕ) (s : GameState),
      (List.range' a n).foldl
        (fun st (i : ℕ) => addTerrainSegment o ((i : ℚ) * HILL_SEGMENT_WIDTH) (i : ℤ) st) s
      = genFrom o a n s := by
    intro n
    induction n with
    | zero => intro a s; rfl
    | succ n ih =>
      intro a s
      rw [List.range'_succ, List.foldl_cons]
      exact ih (a + 1) _
  simp only [genSegments]
  rw [List.range_eq_range']
  exact h n 0 s

theorem genFrom_add (o : Oracle) :
    ∀ (m n a : ℕ) (s : GameState),
      genFrom o a (m + n) s = genFrom o (a + m) n (genFrom o a m s) := by
  intro m
  induction m with
  | zero =>
    intro n a s
    rw [Nat.zero_add]
    rfl
  | succ m ih =>
    intro n a s
    have h1 : m + 1 + n = m + n + 1 := by omega
    rw [h1]
    show genFrom o (a + 1) (m + n)
        (addTerrainSegment o ((a : ℚ) * HILL_SEGMENT_WIDTH) (a : ℤ) s) = _
    rw [ih]
    have h2 : a + 1 + m = a + (m + 1) := by omega
    rw [h2]
    rfl

theorem addTerrainSegment_fields_of_no_spawn (o : Oracle) (x : ℚ) (i : ℤ) (s : GameState)
    (h : ¬ x ≥ s.lastBridgeX + s.nextBridgeX) :
    (addTerrainSegment o x i s).bridges = s.bridges
    ∧ (addTerrainSegment o x i s).lastBridgeX = s.lastBridgeX
    ∧ (addTerrainSegment o x i s).nextBridgeX = s.nextBridgeX := by
  simp only [addTerrainSegment]
  rw [spawnBridge_of_no_spawn]
  · exact ⟨by simp, by simp, by simp⟩
  · rintro ⟨h1, -⟩
    exact h (by simpa using h1)

theorem onBridgeAt_eq_false (bs : List Bridge) (x : ℚ)
    (h : ∀ b ∈ bs, ¬ (b.startX ≤ x ∧ x ≤ b.endX)) : onBridgeAt bs x = false := by
  simp only [onBridgeAt, List.any_eq_false, Bool.and_eq_true, decide_eq_true_eq]
  exact h

theorem addTerrainSegment_fields_of_spawn_zero (x : ℚ) (i : ℤ) (s : GameState)
    (h1 : x ≥ s.lastBridgeX + s.nextBridgeX) (h2 : onBridgeAt s.bridges x = false) :
    ∃ y : ℚ, (addTerrainSegment oracleZero x i s).bridges
        = s.bridges ++ [{ startX := x, endX := x + BRIDGE_LENGTH, y := y, wooden := false }]
    ∧ (addTerrainSegment oracleZero x i s).lastBridgeX = x
    ∧ (addTerrainSegment oracleZero x i s).nextBridgeX = 2500 := by
  have hw : (decide ((0 : ℚ) > 0.5)) = false := by with_unfolding_all decide
  simp only [addTerrainSegment]
  rw [spawnBridge_of_spawn]
  · refine ⟨(segmentHeight oracleZero i (onBridgeAt s.bridges x) x s).1, ?_, by simp, ?_⟩
    · simp only [spawnCoin_bridges, spawnBoost_bridges, spawnFuel_bridges]
      simp [peekRand, oracleZero, hw, segmentHeight_bridges]
    · simp only [spawnCoin_nextBridgeX, spawnBoost_nextBridgeX, spawnFuel_nextBridgeX]
      norm_num [peekRand, oracleZero, BRIDGE_MIN_DISTANCE, BRIDGE_MAX_DISTANCE]
  · refine ⟨by simpa using h1, ?_⟩
    simpa using h2

theorem genFrom_fields_const (o : Oracle) :
    ∀ (n a : ℕ) (s : GameState),
      (∀ k : ℕ, a ≤ k → k < a + n →
        (k : ℚ) * HILL_SEGMENT_WIDTH < s.lastBridgeX + s.nextBridgeX) →
      (genFrom o a n s).bridges = s.bridges
      ∧ (genFrom o a n s).lastBridgeX = s.lastBridgeX
      ∧ (genFrom o a n s).nextBridgeX = s.nextBridgeX := by
  intro n
  induction n with
  | zero => intro a s h; exact ⟨rfl, rfl, rfl⟩
  | succ n ih =>
    intro a s h
    have hstep := addTerrainSegment_fields_of_no_spawn o ((a : ℚ) * HILL_SEGMENT_WIDTH)
      (a : ℤ) s (not_le.mpr (h a (le_refl a) (by omega)))
    have hrec := ih (a + 1) (addTerrainSegment o ((a : ℚ) * HILL_SEGMENT_WIDTH) (a : ℤ) s)
      (fun k hk1 hk2 => by
        rw [hstep.2.1, hstep.2.2]
        exact h k (by omega) (by omega))
    exact ⟨hrec.1.trans hstep.1, hrec.2.1.trans hstep.2.1, hrec.2.2.trans hstep.2.2⟩

/-- C6 (amended): what generation actually guarantees is start-to-start
spacing: assuming every random draw is nonnegative (as `Math.random()` is)
and the bridge-spawn state satisfies its invariant (as it does right after
`generateTerrain`'s reset), any two consecutive generated bridges satisfy
`bridge[i+1].startX - bridge[i].endX ≥ BRIDGE_MIN_DISTANCE * 10 -
BRIDGE_LENGTH` — equivalently `bridge[i+1].startX - bridge[i].startX ≥
BRIDGE_MIN_DISTANCE * 10` — because the redrawn threshold is measured from
the previous bridge's `startX`, not its `endX`. -/
theorem c6_bridge_spacing (o : Oracle) (s : GameState) (n : ℕ)
    (hr : ∀ k : ℕ, 0 ≤ o.rand k) (h : BridgeInv s) :
    List.Chain' (fun a b => BRIDGE_MIN_DISTANCE * 10 - BRIDGE_LENGTH ≤ b.startX - a.endX)
      (genSegments o s n).bridges := by
  rw [genSegments_eq_genFrom]
  exact (genFrom_BridgeInv o hr n 0 s h).1

/-- Witness for C6 (amended): the invariant holds after the generation reset
at viewport width 1200, and the full initial generation of 152 segments
keeps the amended spacing bound. -/
theorem c6_bridge_spacing_witness :
    BridgeInv (resetGen oracleZero (initGame 1200))
    ∧ List.Chain' (fun a b => BRIDGE_MIN_DISTANCE * 10 - BRIDGE_LENGTH ≤ b.startX - a.endX)
        (genSegments oracleZero (resetGen oracleZero (initGame 1200)) 152).bridges := by
  have hInv : BridgeInv (resetGen oracleZero (initGame 1200)) := by
    have hb : (resetGen oracleZero (initGame 1200)).bridges = [] := rfl
    have hn : (resetGen oracleZero (initGame 1200)).nextBridgeX = 2500 :=
      le_antisymm (by with_unfolding_all decide) (by with_unfolding_all decide)
    refine ⟨?_, ?_, ?_, ?_⟩
    · rw [hb]
      exact List.chain'_nil
    · rw [hb]
      intro b hb2
      cases hb2
    · intro hne
      exact absurd hb hne
    · rw [hn, show BRIDGE_MIN_DISTANCE = 250 from rfl]
      norm_num
  exact ⟨hInv, c6_bridge_spacing oracleZero _ 152 (fun _ => le_refl 0) hInv⟩

/-- The bridge list produced by the full initial generation at viewport
width 1200 under the all-zeros random stream: exactly two bridges, spawned
at segment indices 67 (`x = 2010`) and 151 (`x = 4530`). -/
theorem c6_generated_bridges :
    ∃ y1 y2 : ℚ,
      (genSegments oracleZero (resetGen oracleZero (initGame 1200)) 152).bridges
        = [{ startX := 2010, endX := 2160, y := y1, wooden := false },
           { startX := 4530, endX := 4680, y := y2, wooden := false }] := by
  set s0 := resetGen oracleZero (initGame 1200) with hs0
  have h0b : s0.bridges = [] := rfl
  have h0l : s0.lastBridgeX = -500 :=
    le_antisymm (by with_unfolding_all decide) (by with_unfolding_all decide)
  have h0n : s0.nextBridgeX = 2500 :=
    le_antisymm (by with_unfolding_all decide) (by with_unfolding_all decide)
  have hx67 : ((67 : ℕ) : ℚ) * HILL_SEGMENT_WIDTH = 2010 := by
    norm_num [HILL_SEGMENT_WIDTH]
  have hx151 : ((151 : ℕ) : ℚ) * HILL_SEGMENT_WIDTH = 4530 := by
    norm_num [HILL_SEGMENT_WIDTH]
  have hwid : HILL_SEGMENT_WIDTH = 30 := rfl
  have hA := genFrom_fields_const oracleZero 67 0 s0 (by
    intro k hk1 hk2
    rw [h0l, h0n, hwid]
    have hk : (k : ℚ) ≤ 66 := by exact_mod_cast Nat.lt_succ_iff.mp (by omega : k < 67)
    linarith)
  set sA := genFrom oracleZero 0 67 s0 with hsA
  obtain ⟨y1, hb1, hl1, hn1⟩ := addTerrainSegment_fields_of_spawn_zero
      (((67 : ℕ) : ℚ) * HILL_SEGMENT_WIDTH) ((67 : ℕ) : ℤ) sA
      (by rw [hA.2.1, hA.2.2, h0l, h0n, hx67]; norm_num)
      (by rw [hA.1, h0b]; rfl)
  set sB := addTerrainSegment oracleZero (((67 : ℕ) : ℚ) * HILL_SEGMENT_WIDTH)
      ((67 : ℕ) : ℤ) sA with hsB
  rw [hA.1, h0b] at hb1
  simp only [List.nil_append] at hb1
  have hC := genFrom_fields_const oracleZero 83 68 sB (by
    intro k hk1 hk2
    rw [hl1, hn1, hx67, hwid]
    have hk : (k : ℚ) ≤ 150 := by exact_mod_cast Nat.lt_succ_iff.mp (by omega : k < 151)
    linarith)
  set sC := genFrom oracleZero 68 83 sB with hsC
  obtain ⟨y2, hb2, hl2, hn2⟩ := addTerrainSegment_fields_of_spawn_zero
      (((151 : ℕ) : ℚ) * HILL_SEGMENT_WIDTH) ((151 : ℕ) : ℤ) sC
      (by rw [hC.2.1, hC.2.2, hl1, hn1, hx67, hx151]; norm_num)
      (by
        rw [hC.1, hb1]
        apply onBridgeAt_eq_false
        intro b hb
        simp only [List.mem_singleton] at hb
        subst hb
        rintro ⟨-, hle⟩
        have hbl : BRIDGE_LENGTH = 150 := rfl
        rw [hx151, hx67, hbl] at hle
        dsimp only at hle
        norm_num at hle)
  set sD := addTerrainSegment oracleZero (((151 : ℕ) : ℚ) * HILL_SEGMENT_WIDTH)
      ((151 : ℕ) : ℤ) sC with hsD
  rw [hC.1, hb1] at hb2
  have e1 : genFrom oracleZero 0 152 s0 = sD := by
    have e2 : genFrom oracleZero 0 152 s0
        = genFrom oracleZero 68 84 (genFrom oracleZero 0 68 s0) :=
      genFrom_add oracleZero 68 84 0 s0
    have e3 : genFrom oracleZero 0 68 s0 = sB := by
      have e4 : genFrom oracleZero 0 68 s0
          = genFrom oracleZero 67 1 (genFrom oracleZero 0 67 s0) :=
        genFrom_add oracleZero 67 1 0 s0
      rw [e4]
      rfl
    have e5 : genFrom oracleZero 68 84 sB
        = genFrom oracleZero 151 1 (genFrom oracleZero 68 83 sB) :=
      genFrom_add oracleZero 83 1 68 sB
    rw [e2, e3, e5]
    rfl
  refine ⟨y1, y2, ?_⟩
  rw [genSegments_eq_genFrom, e1, hb2, hx67, hx151]
  simp only [List.cons_append, List.nil_append, List.cons.injEq, Bridge.mk.injEq,
    show BRIDGE_LENGTH = (150 : ℚ) from rfl]
  norm_num

/-- Counterexample to C6 as stated: with the all-zeros random stream (every
draw at the low end of its range), the initial generation at viewport width
1200 produces exactly two bridges, at `startX = 2010` (`endX = 2160`) and
`startX = 4530`, whose end-to-start gap `4530 - 2160 = 2370` is smaller than
`BRIDGE_MIN_DISTANCE * 10 = 2500`: the spawn threshold is measured from the
previous bridge's `startX`, so the end-to-start gap falls short by
`BRIDGE_LENGTH`. -/
theorem c6_counterexample :
    ¬ List.Chain' (fun a b => BRIDGE_MIN_DISTANCE * 10 ≤ b.startX - a.endX)
        (genSegments oracleZero (resetGen oracleZero (initGame 1200)) 152).bridges := by
  intro hch
  obtain ⟨y1, y2, hb⟩ := c6_generated_bridges
  rw [hb] at hch
  have hpair := (List.chain'_cons.mp hch).1
  dsimp only at hpair
  rw [show BRIDGE_MIN_DISTANCE = (250 : ℚ) from rfl] at hpair
  norm_num at hpair

end HillClimb
